import Mathlib

/-!
# MongoCreator-GoProducer: document generation and the publish loop

A shallow embedding of `cmd/producer.go`:

* `toFixed` / `round` over a model of Go's `float64` (IEEE-754 binary64,
  round-to-nearest-even);
* `constructFakeBasket`, with the random source, the unique-id generator and
  the clock made explicit inputs;
* the body of the `runLoader` loop as a step function on an explicit state.
-/

namespace Producer

/-! ## Go `float64` -/

/-- A Go `float64` value: NaN, a signed infinity, or the finite number
`(-1)^neg * m * 2^e`.  Results of arithmetic are always in canonical form:
`m < 2^53`, `e ≥ -1074`, and `2^52 ≤ m` unless `e = -1074`; zero is
`m = 0, e = -1074`. -/
inductive F64 where
  | nan : F64
  | inf (neg : Bool) : F64
  | fin (neg : Bool) (m : Nat) (e : Int) : F64
  deriving DecidableEq, Repr

namespace F64

/-- Halving loop behind `log2`: `fuel` bounds the number of halvings. -/
def log2Loop : Nat → Nat → Nat
  | 0, _ => 0
  | fuel + 1, n => if 2 ≤ n then log2Loop fuel (n / 2) + 1 else 0

/-- The exponent `floor (log2 n)` of a positive natural number (`0` for `0`). -/
def log2 (n : Nat) : Nat := log2Loop n n

/-- The exponent `floor (log2 (num / den))` of a positive ratio. -/
def floorLog2Q (num den : Nat) : Int :=
  let a := log2 num
  let b := log2 den
  if b ≤ a then
    if den * 2 ^ (a - b) ≤ num then ((a - b : Nat) : Int) else ((a - b : Nat) : Int) - 1
  else
    if den ≤ num * 2 ^ (b - a) then -((b - a : Nat) : Int) else -((b - a : Nat) : Int) - 1

/-- Signed zero. -/
def zero (neg : Bool) : F64 := fin neg 0 (-1074)

/-- The quotient `num / (den * 2^p)` rounded to the nearest integer, ties to
the even one. -/
def nearestEven (num den : Nat) (p : Int) : Nat :=
  let N := if p < 0 then num * 2 ^ (-p).toNat else num
  let D := if p < 0 then den else den * 2 ^ p.toNat
  let q := N / D
  let r := N % D
  if 2 * r < D then q else if D < 2 * r then q + 1
  else if q % 2 = 0 then q else q + 1

/-- The `float64` with sign `neg` and value `m * 2^p`, for a rounded mantissa
`m ≤ 2^53` at the quantum exponent `p`; values past the largest finite number
become infinite. -/
def pack (neg : Bool) (m : Nat) (p : Int) : F64 :=
  if m = 0 then zero neg
  else if m = 2 ^ 53 then (if 971 < p + 1 then inf neg else fin neg (2 ^ 52) (p + 1))
  else if 971 < p then inf neg else fin neg m p

/-- Round the exact value `(-1)^neg * num / den` to the nearest `float64`, ties
to even mantissa. -/
def roundQ (neg : Bool) (num den : Nat) : F64 :=
  if num = 0 then zero neg
  else
    let p := max (floorLog2Q num den - 52) (-1074)
    pack neg (nearestEven num den p) p

/-- Round the exact dyadic value `(-1)^neg * m * 2^e`. -/
def roundDyadic (neg : Bool) (m : Nat) (e : Int) : F64 :=
  if 0 ≤ e then roundQ neg (m * 2 ^ e.toNat) 1 else roundQ neg m (2 ^ (-e).toNat)

/-- Float product `x * y`. -/
def mul : F64 → F64 → F64
  | nan, _ => nan
  | _, nan => nan
  | inf s, inf t => inf (xor s t)
  | inf s, fin t m _ => if m = 0 then nan else inf (xor s t)
  | fin s m _, inf t => if m = 0 then nan else inf (xor s t)
  | fin s m e, fin t n f => roundDyadic (xor s t) (m * n) (e + f)

/-- Float sum `x + y`. -/
def add : F64 → F64 → F64
  | nan, _ => nan
  | _, nan => nan
  | inf s, inf t => if s = t then inf s else nan
  | inf s, fin _ _ _ => inf s
  | fin _ _ _, inf t => inf t
  | fin s m e, fin t n f =>
    let g := min e f
    let a : Int := (if s then -1 else 1) * ((m * 2 ^ (e - g).toNat : Nat) : Int)
    let b : Int := (if t then -1 else 1) * ((n * 2 ^ (f - g).toNat : Nat) : Int)
    let c := a + b
    if c = 0 then zero (s && t) else roundDyadic (decide (c < 0)) c.natAbs g

/-- Float quotient `x / y`. -/
def div : F64 → F64 → F64
  | nan, _ => nan
  | _, nan => nan
  | inf _, inf _ => nan
  | inf s, fin t _ _ => inf (xor s t)
  | fin s _ _, inf t => zero (xor s t)
  | fin s m e, fin t n f =>
    if n = 0 then (if m = 0 then nan else inf (xor s t))
    else if e ≤ f then roundQ (xor s t) m (n * 2 ^ (f - e).toNat)
    else roundQ (xor s t) (m * 2 ^ (e - f).toNat) n

/-- Conversion `float64(n)` of a Go `int`. -/
def ofInt (n : Int) : F64 := roundQ (decide (n < 0)) n.natAbs 1

/-- The value an out-of-range or NaN `float64` converts to under `int(x)`.
Go leaves it implementation-defined; this is the amd64 result (the
"integer indefinite" value). -/
def intIndefinite : Int := -(2 ^ 63)

/-- Conversion `int(x)`: truncation toward zero. -/
def toInt : F64 → Int
  | nan => intIndefinite
  | inf _ => intIndefinite
  | fin s m e =>
    let a : Nat := if 0 ≤ e then m * 2 ^ e.toNat else m / 2 ^ (-e).toNat
    let v : Int := if s then -(a : Int) else (a : Int)
    if -(2 ^ 63) ≤ v ∧ v < 2 ^ 63 then v else intIndefinite

/-- The Go call `math.Copysign(x, y)`: magnitude of `x`, sign of `y`.
(A NaN `y` carries a sign bit in Go; the model takes it as positive, which no
caller can observe because `round` then adds the result to that NaN.) -/
def copysign : F64 → F64 → F64
  | nan, _ => nan
  | inf _, inf t => inf t
  | inf _, fin t _ _ => inf t
  | inf _, nan => inf false
  | fin _ m e, inf t => fin t m e
  | fin _ m e, fin t _ _ => fin t m e
  | fin _ m e, nan => fin false m e

/-- The constant `0.5`. -/
def half : F64 := fin false (2 ^ 52) (-53)

/-- The value of a decimal literal `num / den` (`den` a power of ten), as the
Go compiler converts it to `float64`. -/
def ofDecimal (num den : Nat) : F64 := roundQ false num den

/-- The Go call `math.Pow(10, float64(precision))` for a small non-negative
precision, where the power of ten is computed exactly. -/
def pow10 (precision : Nat) : F64 := ofInt (10 ^ precision)

/-- The same value with the sign bit set to `s`. -/
def setSign (s : Bool) : F64 → F64
  | nan => nan
  | inf _ => inf s
  | fin _ m e => fin s m e

/-- The magnitude `|x|`. -/
def abs (x : F64) : F64 := setSign false x

/-- The sign of a value as an integer: `-1` when the sign bit is set, else `1`. -/
def sign : F64 → Int
  | nan => 1
  | inf s => if s then -1 else 1
  | fin s _ _ => if s then -1 else 1

/-- The exact integer part `floor |x|` of a finite value (`0` otherwise). -/
def floorAbs : F64 → Nat
  | nan => 0
  | inf _ => 0
  | fin _ m e => if 0 ≤ e then m * 2 ^ e.toNat else m / 2 ^ (-e).toNat

/-- Whether the value is a finite number. -/
def isFinite : F64 → Bool
  | fin _ _ _ => true
  | _ => false

end F64

/-! ## Helper functions of the source -/

/-- Go: `func round(num float64) int { return int(num + math.Copysign(0.5, num)) }` -/
def round (num : F64) : Int :=
  F64.toInt (F64.add num (F64.copysign F64.half num))

/-- Go: `output := math.Pow(10, float64(precision));
return float64(round(num*output)) / output` -/
def toFixed (num : F64) (precision : Nat) : F64 :=
  let output := F64.pow10 precision
  F64.div (F64.ofInt (round (F64.mul num output))) output

/-! ## Go `time`

An instant is the number of seconds since `0001-01-01T00:00:00` UTC (Go's
absolute seconds, with the internal epoch moved by a whole number of 400-year
cycles). A location gives the zone in force at each instant; the wall clock of
an instant is the instant plus the zone offset. -/

abbrev Time := Int

/-- Go: what `l.lookup(sec)` returns: the offset (seconds east of UTC) of the
zone in force at `sec`, and the instants `start ≤ sec < stop` between which it
is in force. -/
structure ZoneSpan where
  offset : Int
  start : Int
  stop : Int
  deriving DecidableEq, Repr

/-- Go: a `*time.Location`, given by its `lookup`. -/
structure Location where
  lookup : Time → ZoneSpan

/-- Go: `time.FixedZone(name, offset)`: one zone, in force at all times. -/
def Location.fixed (offset : Int) : Location :=
  { lookup := fun _ => { offset := offset, start := -(2 ^ 63), stop := 2 ^ 63 - 1 } }

/-- Go: `time.UTC`. -/
def utc : Location := Location.fixed 0

/-- Go: `t.abs()`: the wall-clock seconds of the instant `t` in its location,
`sec + offset` for the offset `l.lookup(sec)` returns. -/
def wallAbs (loc : Location) (t : Time) : Int :=
  t + (loc.lookup t).offset

def secondsPerDay : Int := 86400
def daysPer400Years : Int := 365 * 400 + 97
def daysPer100Years : Int := 365 * 100 + 24
def daysPer4Years : Int := 365 * 4 + 1

/-- Go: `year%4 == 0 && (year%100 != 0 || year%400 == 0)` -/
def isLeap (year : Int) : Bool :=
  year % 4 == 0 && (year % 100 != 0 || year % 400 == 0)

/-- Go: the table `daysBefore[i]`, days in a non-leap year before month `i+1`. -/
def daysBefore (i : Int) : Int :=
  if i ≤ 0 then 0 else if i = 1 then 31 else if i = 2 then 59 else if i = 3 then 90
  else if i = 4 then 120 else if i = 5 then 151 else if i = 6 then 181
  else if i = 7 then 212 else if i = 8 then 243 else if i = 9 then 273
  else if i = 10 then 304 else if i = 11 then 334 else 365

/-- Go: `absDate(abs, false)` on the day count `d = abs / secondsPerDay`: the
year and the zero-based day within it. -/
def yearDay (d : Int) : Int × Int :=
  let n := d / daysPer400Years
  let y := 400 * n
  let d := d - daysPer400Years * n
  let n := d / daysPer100Years
  let n := n - n / 4
  let y := y + 100 * n
  let d := d - daysPer100Years * n
  let n := d / daysPer4Years
  let y := y + 4 * n
  let d := d - daysPer4Years * n
  let n := d / 365
  let n := n - n / 4
  let y := y + n
  let d := d - 365 * n
  (y + 1, d)

/-- Go: the second half of `absDate(abs, true)`: month and day of the month
from the zero-based day of the year. -/
def monthDay (leap : Bool) (yday : Int) : Int × Int :=
  if leap && yday == 31 + 29 - 1 then (2, 29)
  else
    let day := if leap && yday > 31 + 29 - 1 then yday - 1 else yday
    let month := day / 31
    let stop := daysBefore (month + 1)
    if day ≥ stop then (month + 2, day - stop + 1)
    else (month + 1, day - daysBefore month + 1)

/-- Go: `absDate(abs, true)`, the year, month and day of wall-clock seconds. -/
def absDate (abs : Int) : Int × Int × Int :=
  let yd := yearDay (abs / secondsPerDay)
  let md := monthDay (isLeap yd.1) yd.2
  (yd.1, md.1, md.2)

/-- Go: `absClock(abs)`, the hour, minute and second of wall-clock seconds. -/
def absClock (abs : Int) : Int × Int × Int :=
  let sec := abs % secondsPerDay
  let hour := sec / 3600
  let sec := sec - hour * 3600
  let min := sec / 60
  let sec := sec - min * 60
  (hour, min, sec)

/-- Go: `norm(hi, lo, base)`. -/
def norm (hi lo base : Int) : Int × Int :=
  let p : Int × Int :=
    if lo < 0 then
      let n := (-lo - 1) / base + 1
      (hi - n, lo + n * base)
    else (hi, lo)
  if p.2 ≥ base then
    let n := p.2 / base
    (p.1 + n, p.2 - n * base)
  else p

/-- Go: `daysSinceEpoch(year)`, the days from the epoch to January 1 of
`year`. -/
def daysSinceEpoch (year : Int) : Int :=
  let y := year - 1
  let n := y / 400
  let y := y - 400 * n
  let d := daysPer400Years * n
  let n := y / 100
  let y := y - 100 * n
  let d := d + daysPer100Years * n
  let n := y / 4
  let y := y - 4 * n
  let d := d + daysPer4Years * n
  d + 365 * y

/-- Go: the first part of `time.Date(year, month, day, hour, min, sec, 0, loc)`:
the fields are normalised and counted up to wall-clock seconds. -/
def dateAbs (year month day hour min sec : Int) : Int :=
  let ym := norm year (month - 1) 12
  let year := ym.1
  let month := ym.2 + 1
  let ms := norm min sec 60
  let hm := norm hour ms.1 60
  let dh := norm day hm.1 24
  let d := daysSinceEpoch year
  let d := d + daysBefore (month - 1)
  let d := if isLeap year && month ≥ 3 then d + 1 else d
  let d := d + (dh.1 - 1)
  d * secondsPerDay + (dh.2 * 3600 + hm.2 * 60 + ms.2)

/-- The days of a year before its month `k + 1`: `daysBefore[k]`, plus the
leap day once February is over, as `Date` adds them up. -/
def daysBeforeMonth (leap : Bool) (k : Int) : Int :=
  daysBefore k + (if leap && k ≥ 2 then 1 else 0)

/-- The day count of the first day of month `k + 1` of `year`, as `Date`
computes it. -/
def monthStart (year k : Int) : Int :=
  daysSinceEpoch year + daysBeforeMonth (isLeap year) k

/-- Go: the last part of `time.Date`: the wall-clock seconds `unix` are turned
into an instant.
`_, offset, start, end, _ := l.lookup(unix); if offset != 0 { utc := unix -
int64(offset); if utc < start || utc >= end { _, offset, _, _, _ =
l.lookup(utc) }; unix -= int64(offset) }`. -/
def zoneAdjust (loc : Location) (unix : Int) : Time :=
  let z := loc.lookup unix
  if z.offset ≠ 0 then
    let utc := unix - z.offset
    let offset := if utc < z.start ∨ utc ≥ z.stop then (loc.lookup utc).offset else z.offset
    unix - offset
  else unix

/-- Go: `time.Date(year, month, day, hour, min, sec, 0, loc)`. -/
def Date (loc : Location) (year month day hour min sec : Int) : Time :=
  zoneAdjust loc (dateAbs year month day hour min sec)

/-- The wall-clock seconds `AddDate` hands to `Date`: the date and clock of
the wall-clock seconds `w`, with the offsets added to the date fields. -/
def shiftAbs (w : Int) (years months days : Int) : Int :=
  let ymd := absDate w
  let hms := absClock w
  dateAbs (ymd.1 + years) (ymd.2.1 + months) (ymd.2.2 + days) hms.1 hms.2.1 hms.2.2

/-- Go: `t.AddDate(years, months, days)`:
`year, month, day := t.Date(); hour, min, sec := t.Clock();
return Date(year+years, month+Month(months), day+days, hour, min, sec, ..., t.Location())`. -/
def AddDate (loc : Location) (t : Time) (years months days : Int) : Time :=
  let ymd := absDate (wallAbs loc t)
  let hms := absClock (wallAbs loc t)
  Date loc (ymd.1 + years) (ymd.2.1 + months) (ymd.2.2 + days) hms.1 hms.2.1 hms.2.2

/-- The decimal digit `'0' + n`. -/
def digitChar (n : Int) : Char := Char.ofNat (48 + n.toNat)

/-- Go: `appendInt(b, x, width)`, the decimal form of `x` zero-padded to
`width`. -/
def appendInt (x : Int) (width : Nat) : List Char :=
  if width = 2 ∧ 0 ≤ x ∧ x < 100 then [digitChar (x / 10), digitChar (x % 10)]
  else if width = 4 ∧ 0 ≤ x ∧ x < 10000 then
    [digitChar (x / 1000), digitChar (x / 100 % 10), digitChar (x / 10 % 10), digitChar (x % 10)]
  else
    let ds := Nat.toDigits 10 x.natAbs
    (if x < 0 then ['-'] else []) ++ List.replicate (width - ds.length) '0' ++ ds

/-- The text of the layout `"2006-01-02T15:04:05"` for given date and clock
fields. -/
def layoutChars (year month day hour min sec : Int) : List Char :=
  appendInt year 4 ++ ('-' :: (appendInt month 2 ++ ('-' :: (appendInt day 2
    ++ ('T' :: (appendInt hour 2 ++ (':' :: (appendInt min 2 ++ (':' :: appendInt sec 2)))))))))

/-- The text of the layout `"2006-01-02T15:04:05"` for the wall-clock seconds
`w`. -/
def formatAbs (w : Int) : String :=
  let ymd := absDate w
  let hms := absClock w
  String.mk (layoutChars ymd.1 ymd.2.1 ymd.2.2 hms.1 hms.2.1 hms.2.2)

/-- Go: `t.Format("2006-01-02T15:04:05")`, for the instant `t` in the location
`loc`. -/
def Format (loc : Location) (t : Time) : String :=
  let ymd := absDate (wallAbs loc t)
  let hms := absClock (wallAbs loc t)
  String.mk (layoutChars ymd.1 ymd.2.1 ymd.2.2 hms.1 hms.2.1 hms.2.2)

/-! ## Data model (package `cmd/types`, as used by `producer.go`) -/

/-- Modelled from the spec: `types.TStoreStruct`; the package `cmd/types` is
not among the sources, `producer.go` reads the field `Name`. -/
structure TStoreStruct where
  Id : String
  Name : String
  deriving DecidableEq, Repr

/-- Modelled from the spec: `types.TClerkStruct` (`Clerk{id, name}`). -/
structure TClerkStruct where
  Id : String
  Name : String
  deriving DecidableEq, Repr

/-- Modelled from the spec: `types.TProductStruct`; `producer.go` reads
`Id`, `Name`, `Brand`, `Category` and `Price`. -/
structure TProductStruct where
  Id : String
  Name : String
  Brand : String
  Category : String
  Price : F64
  deriving DecidableEq, Repr

/-- The seed catalog `types.TPSeed`. -/
structure TPSeed where
  Stores : List TStoreStruct
  Clerks : List TClerkStruct
  Products : List TProductStruct
  deriving DecidableEq, Repr

/-- The fields of `types.Tp_general` that generation and the loop read. -/
structure Tp_general where
  Store : Int
  Max_items_basket : Int
  Max_quantity : Int
  Vatrate : F64
  TimeOffset : String
  KafkaEnabled : Int
  Json_to_file : Int
  Testsize : Int
  Sleep : Int
  deriving DecidableEq, Repr

/-- Modelled from the spec: `types.TKafka`, of which the loop reads
`BasketTopicname` and `Flush_interval`; `PaymentTopicname` is the second of
the "two topic names" of the configuration. -/
structure TKafka where
  BasketTopicname : String
  PaymentTopicname : String
  Flush_interval : Int
  deriving DecidableEq, Repr

/-- Go: `types.Tp_BasketItem`, as built in `constructFakeBasket`. -/
structure Tp_BasketItem where
  Id : String
  Name : String
  Brand : String
  Category : String
  Price : F64
  Quantity : Int
  deriving DecidableEq, Repr

/-- Go: `types.Tp_basket`, as built in `constructFakeBasket`. -/
structure Tp_basket where
  InvoiceNumber : String
  SaleDateTime : String
  Store : TStoreStruct
  Clerk : TClerkStruct
  TerminalPoint : String
  BasketItems : List Tp_BasketItem
  Nett : F64
  VAT : F64
  Total : F64
  deriving DecidableEq, Repr

/-- Go: `types.Tp_payment`, as built in `constructFakeBasket`. -/
structure Tp_payment where
  InvoiceNumber : String
  PayDateTime : String
  Paid : F64
  FinTransactionID : String
  deriving DecidableEq, Repr

/-! ## Run-time panics and the random source -/

/-- The run-time panics the modelled code can raise. -/
inductive GoPanic where
  | indexOutOfRange
  | intnNonPositive
  deriving DecidableEq, Repr

/-- The random source: the raw values the generator will hand out, in order. -/
abbrev Rng := Nat → Nat

/-- Go: `rand.Intn(n)`: panics when `n <= 0`, else a value in `[0, n)`. -/
def Intn (n : Int) (rng : Rng) : Except GoPanic (Int × Rng) :=
  if n ≤ 0 then .error .intnNonPositive
  else .ok (((rng 0 : Nat) : Int) % n, fun i => rng (i + 1))

/-- The library call `gofakeit.Number(min, max)`:
`if min == max { return min }; return rand.Intn((max+1)-min) + min`. -/
def Number (min max : Int) (rng : Rng) : Except GoPanic (Int × Rng) :=
  if min = max then .ok (min, rng)
  else
    match Intn ((max + 1) - min) rng with
    | .error e => .error e
    | .ok (r, rng) => .ok (r + min, rng)

/-- Go: the slice index expression `xs[i]`. -/
def index {α : Type} (xs : List α) (i : Int) : Except GoPanic α :=
  if i < 0 then .error .indexOutOfRange
  else
    match xs.get? i.toNat with
    | some x => .ok x
    | none => .error .indexOutOfRange

/-- What one call of `constructFakeBasket` takes from outside: the random
source (freshly seeded from the clock by `gofakeit.Seed(0)`), the two results
of `uuid.New().String()`, the location `time.Local` of the process and the
two readings of `time.Now()`. -/
structure Env where
  rng : Rng
  txnId : String
  finTxnId : String
  loc : Location
  saleNow : Time
  payNow : Time

/-! ## `constructFakeBasket` -/

/-- The item loop of `constructFakeBasket`:
`for count := 0; count < nBasketItems; count++ { ... }`, with `n` the number
of iterations still to run. -/
def basketLoop (products : List TProductStruct) (productCount maxQuantity : Int) :
    Nat → Rng → List Tp_BasketItem → F64 → Except GoPanic (List Tp_BasketItem × F64 × Rng)
  | 0, rng, arBasketItems, nett_amount => .ok (arBasketItems, nett_amount, rng)
  | n + 1, rng, arBasketItems, nett_amount =>
    match Number 0 productCount rng with
    | .error e => .error e
    | .ok (productId, rng) =>
      match Number 1 maxQuantity rng with
      | .error e => .error e
      | .ok (quantity, rng) =>
        match index products productId with
        | .error e => .error e
        | .ok product =>
          let price := product.Price
          let BasketItem : Tp_BasketItem :=
            { Id := product.Id, Name := product.Name, Brand := product.Brand,
              Category := product.Category, Price := product.Price, Quantity := quantity }
          basketLoop products productCount maxQuantity n rng (arBasketItems ++ [BasketItem])
            (F64.add nett_amount (F64.mul price (F64.ofInt quantity)))

/-- The store selection of `constructFakeBasket`:
`if vGeneral.Store == 0 { storeCount := len(varSeed.Stores) - 1;
nStoreId := gofakeit.Number(0, storeCount); store = varSeed.Stores[nStoreId] }
else { store = varSeed.Stores[vGeneral.Store] }`. -/
def selectStore (vGeneral : Tp_general) (varSeed : TPSeed) (rng : Rng) :
    Except GoPanic (TStoreStruct × Rng) :=
  if vGeneral.Store = 0 then
    match Number 0 ((varSeed.Stores.length : Int) - 1) rng with
    | .error e => .error e
    | .ok (nStoreId, rng) =>
      match index varSeed.Stores nStoreId with
      | .error e => .error e
      | .ok store => .ok (store, rng)
  else
    match index varSeed.Stores vGeneral.Store with
    | .error e => .error e
    | .ok store => .ok (store, rng)

/-- The clerk selection of `constructFakeBasket`:
`clerkCount := len(varSeed.Clerks) - 1; nClerkId := gofakeit.Number(0, clerkCount);
clerk := varSeed.Clerks[nClerkId]`. -/
def selectClerk (varSeed : TPSeed) (rng : Rng) : Except GoPanic (TClerkStruct × Rng) :=
  match Number 0 ((varSeed.Clerks.length : Int) - 1) rng with
  | .error e => .error e
  | .ok (nClerkId, rng) =>
    match index varSeed.Clerks nClerkId with
    | .error e => .error e
    | .ok clerk => .ok (clerk, rng)

/-- The payment timestamp of `constructFakeBasket`:
`time.Now().AddDate(0, gofakeit.Number(0, 5), gofakeit.Number(0, 59))
.Format("2006-01-02T15:04:05") + vGeneral.TimeOffset`, together with the
instant that is formatted. -/
def payTimeOf (vGeneral : Tp_general) (loc : Location) (now : Time) (rng : Rng) :
    Except GoPanic (Time × String) :=
  match Number 0 5 rng with
  | .error e => .error e
  | .ok (months, rng) =>
    match Number 0 59 rng with
    | .error e => .error e
    | .ok (days, _) =>
      let t := AddDate loc now 0 months days
      .ok (t, Format loc t ++ vGeneral.TimeOffset)

/-- Go: `constructFakeBasket()`, reading the package variables `vGeneral` and
`varSeed`. -/
def constructFakeBasket (vGeneral : Tp_general) (varSeed : TPSeed) (env : Env) :
    Except GoPanic (Tp_basket × Tp_payment × String) :=
  match selectStore vGeneral varSeed env.rng with
  | .error e => .error e
  | .ok (store, rng) =>
    match selectClerk varSeed rng with
    | .error e => .error e
    | .ok (clerk, rng) =>
      let txnId := env.txnId
      let eventTime := Format env.loc env.saleNow ++ vGeneral.TimeOffset
      let productCount : Int := (varSeed.Products.length : Int) - 1
      match Number 1 vGeneral.Max_items_basket rng with
      | .error e => .error e
      | .ok (nBasketItems, rng) =>
        match basketLoop varSeed.Products productCount vGeneral.Max_quantity
            nBasketItems.toNat rng [] (F64.zero false) with
        | .error e => .error e
        | .ok (arBasketItems, nett_amount, rng) =>
          let nett_amount := toFixed nett_amount 2
          let vat_amount := toFixed (F64.mul nett_amount vGeneral.Vatrate) 2
          let total_amount := toFixed (F64.add nett_amount vat_amount) 2
          match Number 0 20 rng with
          | .error e => .error e
          | .ok (terminalPoint, rng) =>
            let t_Basket : Tp_basket :=
              { InvoiceNumber := txnId, SaleDateTime := eventTime, Store := store,
                Clerk := clerk, TerminalPoint := toString terminalPoint,
                BasketItems := arBasketItems, Nett := nett_amount, VAT := vat_amount,
                Total := total_amount }
            match payTimeOf vGeneral env.loc env.payNow rng with
            | .error e => .error e
            | .ok (_, payTime) =>
              let t_Payment : Tp_payment :=
                { InvoiceNumber := txnId, PayDateTime := payTime, Paid := total_amount,
                  FinTransactionID := env.finTxnId }
              .ok (t_Basket, t_Payment, store.Name)

/-! ## The loop of `runLoader` -/

/-- Go: `kafka.Message`, reduced to topic, payload and key. -/
structure KafkaMessage where
  Topic : String
  Value : String
  Key : String
  deriving DecidableEq, Repr

/-- What the loop does to the outside world. -/
inductive Event where
  | produce (msg : KafkaMessage) (accepted : Bool)
  | flush (timeoutMs : Int) (remaining : Int)
  | spawnListener
  | writeBasket (text : String) (ok : Bool)
  | writePmnt (text : String) (ok : Bool)
  | logError (what : String)
  deriving DecidableEq, Repr

/-- The function `json.Marshal` and `json.MarshalIndent` of `encoding/json`,
on the two document types: the encoded text, or an error. -/
structure Json where
  MarshalBasket : Tp_basket → Except String String
  MarshalPayment : Tp_payment → Except String String
  MarshalIndentBasket : Tp_basket → Except String String
  MarshalIndentPayment : Tp_payment → Except String String

/-- What one loop iteration takes from outside. -/
structure IterInput where
  env : Env
  basketSendOk : Bool
  paymentSendOk : Bool
  flushRemaining : Int
  basketWriteOk : Bool
  pmntWriteOk : Bool
  sleepMid : Rng
  sleepEnd : Rng

/-- The loop-carried state: the counter `vFlush` and the trace of effects. -/
structure LoopState where
  vFlush : Int
  events : List Event
  deriving DecidableEq, Repr

/-- How an iteration, or a run, ends. -/
inductive Step where
  | next (s : LoopState)
  | exit (code : Int) (s : LoopState)
  | panic (e : GoPanic) (s : LoopState)
  deriving DecidableEq, Repr

/-- The encoded bytes of a `json.Marshal` result: `nil` on error. -/
def bytesOf (r : Except String String) : String :=
  match r with
  | .ok b => b
  | .error _ => ""

/-- The events of an error branch that only logs. -/
def logIfError (r : Except String String) (what : String) : List Event :=
  match r with
  | .ok _ => []
  | .error _ => [Event.logError what]

/-- The flush block of the loop:
`if vFlush == vKafka.Flush_interval { t := 10000; if r := p.Flush(t); r > 0
{ grpcLog.Error(...) } else { ...; vFlush = 0 } }`. -/
def flushBlock (vKafka : TKafka) (inp : IterInput) (s : LoopState) : LoopState :=
  if s.vFlush = vKafka.Flush_interval then
    let r := inp.flushRemaining
    if r > 0 then
      { vFlush := s.vFlush,
        events := s.events ++ [Event.flush 10000 r, Event.logError "Failed to flush all messages"] }
    else
      { vFlush := 0, events := s.events ++ [Event.flush 10000 r] }
  else s

/-- The block `if vGeneral.KafkaEnabled == 1 { ... }` of the loop body. -/
def postToKafka (vGeneral : Tp_general) (vKafka : TKafka) (json : Json) (inp : IterInput)
    (t_SalesBasket : Tp_basket) (t_Payment : Tp_payment) (storeName : String)
    (s : LoopState) : Step :=
  let r1 := json.MarshalBasket t_SalesBasket
  let kafkaMsg1 : KafkaMessage :=
    { Topic := vKafka.BasketTopicname, Value := bytesOf r1, Key := storeName }
  let ev1 := logIfError r1 "Marchalling error" ++ [Event.produce kafkaMsg1 inp.basketSendOk]
    ++ (if inp.basketSendOk then [] else [Event.logError "error producing the message"])
  match Intn vGeneral.Sleep inp.sleepMid with
  | .error e => .panic e { s with events := s.events ++ ev1 }
  | .ok _ =>
    let r2 := json.MarshalPayment t_Payment
    let kafkaMsg2 : KafkaMessage :=
      { Topic := vKafka.BasketTopicname, Value := bytesOf r2, Key := "1001" }
    let ev2 := logIfError r2 "Marchalling error" ++ [Event.produce kafkaMsg2 inp.paymentSendOk]
      ++ (if inp.paymentSendOk then [] else [Event.logError "error producing the message"])
    let s1 : LoopState := { vFlush := s.vFlush + 1, events := s.events ++ ev1 ++ ev2 }
    let s2 := flushBlock vKafka inp s1
    .next { s2 with events := s2.events ++ [Event.spawnListener] }

/-- The block `if vGeneral.Json_to_file == 1 { ... }` of the loop body. -/
def saveToFile (json : Json) (inp : IterInput) (t_SalesBasket : Tp_basket)
    (t_Payment : Tp_payment) (s : LoopState) : LoopState :=
  let r1 := json.MarshalIndentBasket t_SalesBasket
  let ev1 := logIfError r1 "MarshalIndent error"
    ++ [Event.writeBasket (bytesOf r1 ++ ",\n") inp.basketWriteOk]
    ++ (if inp.basketWriteOk then [] else [Event.logError "os.WriteString error"])
  let r2 := json.MarshalIndentPayment t_Payment
  let ev2 := logIfError r2 "MarshalIndent error"
    ++ [Event.writePmnt (bytesOf r2 ++ ",\n") inp.pmntWriteOk]
    ++ (if inp.pmntWriteOk then [] else [Event.logError "os.WriteString error"])
  { s with events := s.events ++ ev1 ++ ev2 }

/-- One pass through the body of
`for count := 0; count < vGeneral.Testsize; count++ { ... }`. -/
def iteration (vGeneral : Tp_general) (vKafka : TKafka) (varSeed : TPSeed) (json : Json)
    (inp : IterInput) (s : LoopState) : Step :=
  match constructFakeBasket vGeneral varSeed inp.env with
  | .error e => .panic e s
  | .ok (t_SalesBasket, t_Payment, storeName) =>
    match json.MarshalBasket t_SalesBasket with
    | .error _ => .exit 1 s
    | .ok _ =>
      match json.MarshalPayment t_Payment with
      | .error _ => .exit 1 s
      | .ok _ =>
        let afterKafka : Step :=
          if vGeneral.KafkaEnabled = 1 then
            postToKafka vGeneral vKafka json inp t_SalesBasket t_Payment storeName s
          else .next s
        match afterKafka with
        | .next s =>
          let s := if vGeneral.Json_to_file = 1 then saveToFile json inp t_SalesBasket t_Payment s
                   else s
          match Intn vGeneral.Sleep inp.sleepEnd with
          | .error e => .panic e s
          | .ok _ => .next s
        | other => other

/-- The first `n` passes of the loop, from pass number `count`. -/
def runLoop (vGeneral : Tp_general) (vKafka : TKafka) (varSeed : TPSeed) (json : Json)
    (inp : Nat → IterInput) : Nat → Nat → LoopState → Step
  | 0, _, s => .next s
  | n + 1, count, s =>
    match iteration vGeneral vKafka varSeed json (inp count) s with
    | .next s => runLoop vGeneral vKafka varSeed json inp n (count + 1) s
    | other => other

/-- The state on entry to the loop: `vFlush := 0`, nothing done yet. -/
def initState : LoopState := { vFlush := 0, events := [] }

/-- Go: the loop of `runLoader`, with
`if vGeneral.Testsize == 0 { vGeneral.Testsize = 10000000000000 }`. -/
def runLoader (vGeneral : Tp_general) (vKafka : TKafka) (varSeed : TPSeed) (json : Json)
    (inp : Nat → IterInput) : Step :=
  let testsize : Int := if vGeneral.Testsize = 0 then 10000000000000 else vGeneral.Testsize
  runLoop { vGeneral with Testsize := testsize } vKafka varSeed json inp testsize.toNat 0 initState

/-- The number of `p.Flush` calls in a trace. -/
def flushCount (evs : List Event) : Nat :=
  (evs.filter (fun e => match e with | .flush _ _ => true | _ => false)).length

/-- The messages handed to `p.Produce` in a trace, in order. -/
def produced (evs : List Event) : List KafkaMessage :=
  evs.filterMap (fun e => match e with | .produce m _ => some m | _ => none)

/-- The number of sends in a trace that `p.Produce` accepted. -/
def acceptedCount (evs : List Event) : Nat :=
  (evs.filter (fun e => match e with | .produce _ ok => ok | _ => false)).length

/-- The number of listener goroutines started in a trace. -/
def listenerCount (evs : List Event) : Nat :=
  (evs.filter (fun e => match e with | .spawnListener => true | _ => false)).length

/-- The running sum `Σ price_i * float64(quantity_i)` over the items, added
left to right from `0.0` as the item loop does. -/
def itemsTotal (items : List Tp_BasketItem) : F64 :=
  items.foldl (fun acc it => F64.add acc (F64.mul it.Price (F64.ofInt it.Quantity)))
    (F64.zero false)

/-- The state after the Kafka block of one pass, when both documents encode. -/
def kafkaResult (vKafka : TKafka) (inp : IterInput) (storeName jb jp : String)
    (s : LoopState) : LoopState :=
  let s2 := flushBlock vKafka inp
    { vFlush := s.vFlush + 1,
      events := s.events
        ++ ([Event.produce { Topic := vKafka.BasketTopicname, Value := jb, Key := storeName }
              inp.basketSendOk]
            ++ (if inp.basketSendOk then [] else [Event.logError "error producing the message"]))
        ++ ([Event.produce { Topic := vKafka.BasketTopicname, Value := jp, Key := "1001" }
              inp.paymentSendOk]
            ++ (if inp.paymentSendOk then []
                else [Event.logError "error producing the message"])) }
  { s2 with events := s2.events ++ [Event.spawnListener] }

/-- The state after one whole pass, when generation and both encodings
succeed and the broker is enabled. -/
def passResult (vGeneral : Tp_general) (vKafka : TKafka) (json : Json) (inp : IterInput)
    (b : Tp_basket) (p : Tp_payment) (storeName jb jp : String) (s : LoopState) : LoopState :=
  if vGeneral.Json_to_file = 1
  then saveToFile json inp b p (kafkaResult vKafka inp storeName jb jp s)
  else kafkaResult vKafka inp storeName jb jp s

/-! ## Sample inputs -/

/-- A seed catalog: two stores, one clerk, two products priced 10.00 and 2.50. -/
def demoSeed : TPSeed :=
  { Stores := [{ Id := "1", Name := "A" }, { Id := "2", Name := "B" }],
    Clerks := [{ Id := "7", Name := "C1" }],
    Products := [{ Id := "p1", Name := "tea", Brand := "x", Category := "food",
                   Price := F64.ofDecimal 1000 100 },
                 { Id := "p2", Name := "salt", Brand := "y", Category := "food",
                   Price := F64.ofDecimal 250 100 }] }

/-- A configuration: random store, up to 3 items of quantity up to 2, 15% VAT,
broker and file output both on. -/
def demoConfig : Tp_general :=
  { Store := 0, Max_items_basket := 3, Max_quantity := 2, Vatrate := F64.ofDecimal 15 100,
    TimeOffset := "+02:00", KafkaEnabled := 1, Json_to_file := 1, Testsize := 3, Sleep := 10 }

/-- A broker configuration with two distinct topics, flushing every 2 passes. -/
def demoKafka : TKafka :=
  { BasketTopicname := "SalesBaskets", PaymentTopicname := "SalesPayments",
    Flush_interval := 2 }

/-- The same broker configuration, flushing every pass. -/
def flushEveryPass : TKafka := { demoKafka with Flush_interval := 1 }

/-- The outside world of one call: a process in UTC, both clock readings at
`2023-12-06T13:05:09`. -/
def demoEnv : Env :=
  { rng := fun i => 7 * i + 3, txnId := "inv-1", finTxnId := "fin-1", loc := utc,
    saleNow := 63837464709, payNow := 63837464709 }

/-- The zones of `America/New_York` from November 2022 to March 2024: standard
time (UTC-5), daylight time (UTC-4) from `2023-03-12T07:00:00Z` to
`2023-11-05T06:00:00Z`, then standard time again. -/
def newYork : Location :=
  { lookup := fun t =>
      if t < dateAbs 2023 3 12 7 0 0 then
        { offset := -18000, start := dateAbs 2022 11 6 6 0 0, stop := dateAbs 2023 3 12 7 0 0 }
      else if t < dateAbs 2023 11 5 6 0 0 then
        { offset := -14400, start := dateAbs 2023 3 12 7 0 0,
          stop := dateAbs 2023 11 5 6 0 0 }
      else
        { offset := -18000, start := dateAbs 2023 11 5 6 0 0,
          stop := dateAbs 2024 3 10 7 0 0 } }

/-- The configuration with the time-zone suffix of New York daylight time. -/
def dstConfig : Tp_general := { demoConfig with TimeOffset := "-04:00" }

/-- A process in New York at the end of daylight time: the sale clock is read
at `2023-11-05T05:59:59Z`, the payment clock one second later, and every
random draw is the lowest value. -/
def dstEnv : Env :=
  { rng := fun _ => 0, txnId := "inv-2", finTxnId := "fin-2", loc := newYork,
    saleNow := dateAbs 2023 11 5 5 59 59, payNow := dateAbs 2023 11 5 6 0 0 }

/-- A process in UTC at the end of year 9999: the sale clock is read at
`9999-12-31T23:59:59Z`, the payment clock one second later, and every random
draw is the lowest value. -/
def lateEnv : Env :=
  { rng := fun _ => 0, txnId := "inv-3", finTxnId := "fin-3", loc := utc,
    saleNow := dateAbs 9999 12 31 23 59 59, payNow := dateAbs 10000 1 1 0 0 0 }

/-- An encoder that always succeeds. -/
def demoJson : Json :=
  { MarshalBasket := fun _ => .ok "basket", MarshalPayment := fun _ => .ok "payment",
    MarshalIndentBasket := fun _ => .ok "basket", MarshalIndentPayment := fun _ => .ok "payment" }

/-- An encoder that fails on every basket. -/
def failingJson : Json :=
  { MarshalBasket := fun _ => .error "unsupported value",
    MarshalPayment := fun _ => .ok "payment",
    MarshalIndentBasket := fun _ => .error "unsupported value",
    MarshalIndentPayment := fun _ => .ok "payment" }

/-- Passes in which every send is accepted and every flush delivers all. -/
def demoInput (_ : Nat) : IterInput :=
  { env := demoEnv, basketSendOk := true, paymentSendOk := true, flushRemaining := 0,
    basketWriteOk := true, pmntWriteOk := true, sleepMid := fun _ => 4, sleepEnd := fun _ => 5 }

/-- Passes in which every send is rejected. -/
def rejectInput (_ : Nat) : IterInput :=
  { env := demoEnv, basketSendOk := false, paymentSendOk := false, flushRemaining := 0,
    basketWriteOk := true, pmntWriteOk := true, sleepMid := fun _ => 4, sleepEnd := fun _ => 5 }

/-- Passes in which every flush times out with 3 messages undelivered. -/
def timeoutInput (_ : Nat) : IterInput :=
  { env := demoEnv, basketSendOk := true, paymentSendOk := true, flushRemaining := 3,
    basketWriteOk := true, pmntWriteOk := true, sleepMid := fun _ => 4, sleepEnd := fun _ => 5 }

/-- The end-to-end scenario: at most 1 item of quantity at most 1, 15% VAT,
random store. -/
def scenarioConfig : Tp_general :=
  { demoConfig with Max_items_basket := 1, Max_quantity := 1 }

/-- The configuration with the store fixed to index 1. -/
def fixedStoreConfig : Tp_general := { demoConfig with Store := 1 }

/-- The configuration with the store fixed to index 5, past the two stores. -/
def badStoreConfig : Tp_general := { demoConfig with Store := 5 }

/-- The seed catalog without any clerk. -/
def noClerkSeed : TPSeed := { demoSeed with Clerks := [] }

/-! ## Lemmas on the random source and slices -/

theorem Number_range {lo hi : Int} {rng rng1 : Rng} {v : Int}
    (h : Number lo hi rng = .ok (v, rng1)) : lo ≤ v ∧ v ≤ hi := by
  unfold Number at h
  by_cases heq : lo = hi
  · rw [if_pos heq] at h
    simp only [Except.ok.injEq, Prod.mk.injEq] at h
    omega
  · rw [if_neg heq] at h
    unfold Intn at h
    by_cases hn : hi + 1 - lo ≤ 0
    · rw [if_pos hn] at h
      simp at h
    · rw [if_neg hn] at h
      simp only [Except.ok.injEq, Prod.mk.injEq] at h
      have hn : 0 < hi + 1 - lo := by omega
      have h1 := Int.emod_nonneg ((rng 0 : Nat) : Int) (ne_of_gt hn)
      have h2 := Int.emod_lt_of_pos ((rng 0 : Nat) : Int) hn
      omega

theorem Number_ok (lo hi : Int) (rng : Rng) (h : lo ≤ hi) :
    ∃ v rng1, Number lo hi rng = .ok (v, rng1) := by
  unfold Number
  by_cases heq : lo = hi
  · rw [if_pos heq]
    exact ⟨_, _, rfl⟩
  · rw [if_neg heq]
    unfold Intn
    rw [if_neg (by omega)]
    exact ⟨_, _, rfl⟩

theorem index_spec {α : Type} {xs : List α} {i : Int} {x : α}
    (h : index xs i = .ok x) : 0 ≤ i ∧ i < xs.length ∧ x ∈ xs := by
  unfold index at h
  by_cases hi : i < 0
  · rw [if_pos hi] at h
    simp at h
  · rw [if_neg hi] at h
    cases hy : xs.get? i.toNat with
    | none => rw [hy] at h; simp at h
    | some y =>
      rw [hy] at h
      simp only [Except.ok.injEq] at h
      subst h
      obtain ⟨hlt, hget⟩ := List.get?_eq_some.mp hy
      refine ⟨by omega, by omega, ?_⟩
      rw [← hget]
      exact List.get_mem _ _ _

theorem index_ok {α : Type} (xs : List α) (i : Int) (h0 : 0 ≤ i) (h1 : i < xs.length) :
    ∃ x, index xs i = .ok x := by
  unfold index
  rw [if_neg (by omega)]
  have hlt : i.toNat < xs.length := by omega
  rw [List.get?_eq_get hlt]
  exact ⟨_, rfl⟩

theorem basketLoop_spec (ps : List TProductStruct) (pc mq : Int) :
    ∀ (n : Nat) (rng : Rng) (items : List Tp_BasketItem) (nett : F64)
      (items1 : List Tp_BasketItem) (nett1 : F64) (rng1 : Rng),
      basketLoop ps pc mq n rng items nett = .ok (items1, nett1, rng1) →
      ∃ new : List Tp_BasketItem, items1 = items ++ new ∧ new.length = n ∧
        nett1 = new.foldl
          (fun acc it => F64.add acc (F64.mul it.Price (F64.ofInt it.Quantity))) nett ∧
        ∀ it ∈ new, (1 ≤ it.Quantity ∧ it.Quantity ≤ mq) ∧
          ∃ p ∈ ps, it.Id = p.Id ∧ it.Name = p.Name ∧ it.Brand = p.Brand ∧
            it.Category = p.Category ∧ it.Price = p.Price := by
  intro n
  induction n with
  | zero =>
    intro rng items nett items1 nett1 rng1 h
    simp only [basketLoop, Except.ok.injEq, Prod.mk.injEq] at h
    refine ⟨[], ?_, rfl, ?_, ?_⟩
    · simp [h.1]
    · simp [h.2.1]
    · intro it hit; simp at hit
  | succ n ih =>
    intro rng items nett items1 nett1 rng1 h
    unfold basketLoop at h
    cases h1 : Number 0 pc rng with
    | error e => rw [h1] at h; simp at h
    | ok r1 =>
      obtain ⟨productId, rngA⟩ := r1
      rw [h1] at h
      simp only at h
      cases h2 : Number 1 mq rngA with
      | error e => rw [h2] at h; simp at h
      | ok r2 =>
        obtain ⟨quantity, rngB⟩ := r2
        rw [h2] at h
        simp only at h
        cases h3 : index ps productId with
        | error e => rw [h3] at h; simp at h
        | ok product =>
          rw [h3] at h
          simp only at h
          obtain ⟨new, hnew, hlen, hsum, hall⟩ := ih _ _ _ _ _ _ h
          have hq := Number_range h2
          have hp := (index_spec h3).2.2
          let item : Tp_BasketItem :=
            { Id := product.Id, Name := product.Name, Brand := product.Brand,
              Category := product.Category, Price := product.Price, Quantity := quantity }
          refine ⟨item :: new, ?_, ?_, ?_, ?_⟩
          · rw [hnew]; simp
          · simp [hlen]
          · rw [hsum]; rfl
          · intro it hit
            rcases List.mem_cons.mp hit with hit | hit
            · subst hit
              exact ⟨hq, product, hp, rfl, rfl, rfl, rfl, rfl⟩
            · exact hall it hit

theorem basketLoop_ok (ps : List TProductStruct) (mq : Int) (hps : 0 < ps.length)
    (hmq : 1 ≤ mq) :
    ∀ (n : Nat) (rng : Rng) (items : List Tp_BasketItem) (nett : F64),
      ∃ r, basketLoop ps ((ps.length : Int) - 1) mq n rng items nett = .ok r := by
  intro n
  induction n with
  | zero => intro rng items nett; exact ⟨_, rfl⟩
  | succ n ih =>
    intro rng items nett
    unfold basketLoop
    obtain ⟨productId, rngA, h1⟩ := Number_ok (0) ((ps.length : Int) - 1) rng (by omega)
    obtain ⟨quantity, rngB, h2⟩ := Number_ok (1) (mq) rngA hmq
    have hr := Number_range h1
    obtain ⟨product, h3⟩ := index_ok ps productId hr.1 (by omega)
    rw [h1]; simp only
    rw [h2]; simp only
    rw [h3]; simp only
    exact ih _ _ _

theorem constructFakeBasket_spec {vGeneral : Tp_general} {varSeed : TPSeed} {env : Env}
    {b : Tp_basket} {p : Tp_payment} {name : String}
    (h : constructFakeBasket vGeneral varSeed env = .ok (b, p, name)) :
    ∃ (store : TStoreStruct) (rng1 : Rng) (clerk : TClerkStruct) (rng2 : Rng) (n : Int)
      (rng3 : Rng) (items : List Tp_BasketItem) (nett : F64) (rng4 : Rng) (tp : Int)
      (rng5 : Rng) (payT : Time) (payS : String),
      selectStore vGeneral varSeed env.rng = .ok (store, rng1) ∧
      selectClerk varSeed rng1 = .ok (clerk, rng2) ∧
      Number 1 vGeneral.Max_items_basket rng2 = .ok (n, rng3) ∧
      basketLoop varSeed.Products ((varSeed.Products.length : Int) - 1) vGeneral.Max_quantity
        n.toNat rng3 [] (F64.zero false) = .ok (items, nett, rng4) ∧
      Number 0 20 rng4 = .ok (tp, rng5) ∧
      payTimeOf vGeneral env.loc env.payNow rng5 = .ok (payT, payS) ∧
      b = { InvoiceNumber := env.txnId,
            SaleDateTime := Format env.loc env.saleNow ++ vGeneral.TimeOffset,
            Store := store, Clerk := clerk, TerminalPoint := toString tp,
            BasketItems := items, Nett := toFixed nett 2,
            VAT := toFixed (F64.mul (toFixed nett 2) vGeneral.Vatrate) 2,
            Total := toFixed (F64.add (toFixed nett 2)
              (toFixed (F64.mul (toFixed nett 2) vGeneral.Vatrate) 2)) 2 } ∧
      p = { InvoiceNumber := env.txnId, PayDateTime := payS,
            Paid := toFixed (F64.add (toFixed nett 2)
              (toFixed (F64.mul (toFixed nett 2) vGeneral.Vatrate) 2)) 2,
            FinTransactionID := env.finTxnId } ∧
      name = store.Name := by
  unfold constructFakeBasket at h
  cases h1 : selectStore vGeneral varSeed env.rng with
  | error e => rw [h1] at h; simp at h
  | ok r1 =>
    obtain ⟨store, rng1⟩ := r1
    rw [h1] at h; simp only at h
    cases h2 : selectClerk varSeed rng1 with
    | error e => rw [h2] at h; simp at h
    | ok r2 =>
      obtain ⟨clerk, rng2⟩ := r2
      rw [h2] at h; simp only at h
      cases h3 : Number 1 vGeneral.Max_items_basket rng2 with
      | error e => rw [h3] at h; simp at h
      | ok r3 =>
        obtain ⟨n, rng3⟩ := r3
        rw [h3] at h; simp only at h
        cases h4 : basketLoop varSeed.Products ((varSeed.Products.length : Int) - 1)
            vGeneral.Max_quantity n.toNat rng3 [] (F64.zero false) with
        | error e => rw [h4] at h; simp at h
        | ok r4 =>
          obtain ⟨items, nett, rng4⟩ := r4
          rw [h4] at h; simp only at h
          cases h5 : Number 0 20 rng4 with
          | error e => rw [h5] at h; simp at h
          | ok r5 =>
            obtain ⟨tp, rng5⟩ := r5
            rw [h5] at h; simp only at h
            cases h6 : payTimeOf vGeneral env.loc env.payNow rng5 with
            | error e => rw [h6] at h; simp at h
            | ok r6 =>
              obtain ⟨payT, payS⟩ := r6
              rw [h6] at h
              simp only [Except.ok.injEq, Prod.mk.injEq] at h
              exact ⟨store, rng1, clerk, rng2, n, rng3, items, nett, rng4, tp, rng5, payT, payS,
                rfl, h2, h3, h4, h5, h6, h.1.symm, h.2.1.symm, h.2.2.symm⟩

theorem selectStore_ok (vGeneral : Tp_general) (varSeed : TPSeed) (rng : Rng)
    (h0 : 0 ≤ vGeneral.Store) (h1 : vGeneral.Store < varSeed.Stores.length) :
    ∃ r, selectStore vGeneral varSeed rng = .ok r := by
  unfold selectStore
  by_cases hs : vGeneral.Store = 0
  · rw [if_pos hs]
    obtain ⟨i, rngA, hn⟩ :=
      Number_ok (0) ((varSeed.Stores.length : Int) - 1) rng (by omega)
    have hr := Number_range hn
    obtain ⟨x, hx⟩ := index_ok varSeed.Stores i hr.1 (by omega)
    rw [hn]; simp only
    rw [hx]
    exact ⟨_, rfl⟩
  · rw [if_neg hs]
    obtain ⟨x, hx⟩ := index_ok varSeed.Stores vGeneral.Store h0 h1
    rw [hx]
    exact ⟨_, rfl⟩

theorem selectClerk_ok (varSeed : TPSeed) (rng : Rng) (h : 0 < varSeed.Clerks.length) :
    ∃ r, selectClerk varSeed rng = .ok r := by
  unfold selectClerk
  obtain ⟨i, rngA, hn⟩ :=
    Number_ok (0) ((varSeed.Clerks.length : Int) - 1) rng (by omega)
  have hr := Number_range hn
  obtain ⟨x, hx⟩ := index_ok varSeed.Clerks i hr.1 (by omega)
  rw [hn]; simp only
  rw [hx]
  exact ⟨_, rfl⟩

theorem payTimeOf_ok (vGeneral : Tp_general) (loc : Location) (now : Time) (rng : Rng) :
    ∃ r, payTimeOf vGeneral loc now rng = .ok r := by
  unfold payTimeOf
  obtain ⟨m, rngA, hm⟩ := Number_ok (0) (5) rng (by omega)
  obtain ⟨d, rngB, hd⟩ := Number_ok (0) (59) rngA (by omega)
  rw [hm]; simp only
  rw [hd]
  exact ⟨_, rfl⟩

theorem constructFakeBasket_ok (vGeneral : Tp_general) (varSeed : TPSeed) (env : Env)
    (h0 : 0 ≤ vGeneral.Store) (h1 : vGeneral.Store < varSeed.Stores.length)
    (hC : 0 < varSeed.Clerks.length) (hP : 0 < varSeed.Products.length)
    (hI : 1 ≤ vGeneral.Max_items_basket) (hQ : 1 ≤ vGeneral.Max_quantity) :
    ∃ r, constructFakeBasket vGeneral varSeed env = .ok r := by
  unfold constructFakeBasket
  obtain ⟨⟨store, rng1⟩, e1⟩ := selectStore_ok vGeneral varSeed env.rng h0 h1
  obtain ⟨⟨clerk, rng2⟩, e2⟩ := selectClerk_ok varSeed rng1 hC
  obtain ⟨n, rng3, e3⟩ := Number_ok (1) (vGeneral.Max_items_basket) rng2 hI
  obtain ⟨⟨items, nett, rng4⟩, e4⟩ :=
    basketLoop_ok varSeed.Products vGeneral.Max_quantity hP hQ n.toNat rng3 [] (F64.zero false)
  obtain ⟨tp, rng5, e5⟩ := Number_ok (0) (20) rng4 (by omega)
  obtain ⟨⟨payT, payS⟩, e6⟩ := payTimeOf_ok vGeneral env.loc env.payNow rng5
  rw [e1]; simp only
  rw [e2]; simp only
  rw [e3]; simp only
  rw [e4]; simp only
  rw [e5]; simp only
  rw [e6]
  exact ⟨_, rfl⟩

/-! ## Lemmas on `float64` -/

theorem F64.pack_setSign (s : Bool) (m : Nat) (p : Int) :
    F64.pack s m p = F64.setSign s (F64.pack false m p) := by
  unfold F64.pack
  split_ifs <;> rfl

theorem F64.roundQ_setSign (s : Bool) (num den : Nat) :
    F64.roundQ s num den = F64.setSign s (F64.roundQ false num den) := by
  unfold F64.roundQ
  split_ifs
  · rfl
  · exact F64.pack_setSign s _ _

theorem F64.roundDyadic_setSign (s : Bool) (m : Nat) (e : Int) :
    F64.roundDyadic s m e = F64.setSign s (F64.roundDyadic false m e) := by
  unfold F64.roundDyadic
  split_ifs
  · exact F64.roundQ_setSign s _ _
  · exact F64.roundQ_setSign s _ _

theorem F64.pack_ne_nan (s : Bool) (m : Nat) (p : Int) : F64.pack s m p ≠ F64.nan := by
  unfold F64.pack
  split_ifs <;> simp [F64.zero]

theorem F64.roundQ_ne_nan (s : Bool) (num den : Nat) : F64.roundQ s num den ≠ F64.nan := by
  unfold F64.roundQ
  split_ifs
  · simp [F64.zero]
  · exact F64.pack_ne_nan s _ _

theorem F64.roundDyadic_ne_nan (s : Bool) (m : Nat) (e : Int) :
    F64.roundDyadic s m e ≠ F64.nan := by
  unfold F64.roundDyadic
  split_ifs
  · exact F64.roundQ_ne_nan s _ _
  · exact F64.roundQ_ne_nan s _ _

set_option maxRecDepth 100000 in
theorem F64.pow10_two : F64.pow10 2 = F64.fin false 7036874417766400 (-46) := by decide

theorem F64.mul_hundred_setSign (s : Bool) (m : Nat) (e : Int) :
    F64.mul (F64.fin s m e) (F64.pow10 2)
      = F64.setSign s (F64.mul (F64.fin false m e) (F64.pow10 2)) := by
  rw [F64.pow10_two]
  simp only [F64.mul, Bool.xor_false]
  exact F64.roundDyadic_setSign s _ _

theorem F64.add_same_sign_eq (s : Bool) (m : Nat) (e : Int) (n : Nat) (f : Int)
    (hn : n ≠ 0) :
    F64.add (F64.fin s m e) (F64.fin s n f)
      = F64.roundDyadic s (m * 2 ^ (e - min e f).toNat + n * 2 ^ (f - min e f).toNat)
          (min e f) := by
  have hB : 0 < n * 2 ^ (f - min e f).toNat :=
    Nat.mul_pos (Nat.pos_of_ne_zero hn) (Nat.pos_pow_of_pos _ (by decide))
  cases s with
  | false =>
    simp only [F64.add, Bool.false_eq_true, if_false]
    have h2 : ¬ ((1 : Int) * ((m * 2 ^ (e - min e f).toNat : Nat) : Int)
        + 1 * ((n * 2 ^ (f - min e f).toNat : Nat) : Int) = 0) := by omega
    have h3 : ((1 : Int) * ((m * 2 ^ (e - min e f).toNat : Nat) : Int)
        + 1 * ((n * 2 ^ (f - min e f).toNat : Nat) : Int)).natAbs
        = m * 2 ^ (e - min e f).toNat + n * 2 ^ (f - min e f).toNat := by omega
    have h5 : decide ((1 : Int) * ((m * 2 ^ (e - min e f).toNat : Nat) : Int)
        + 1 * ((n * 2 ^ (f - min e f).toNat : Nat) : Int) < 0) = false := by
      rw [decide_eq_false_iff_not]; omega
    rw [if_neg h2, h3, h5]
  | true =>
    simp only [F64.add, if_true]
    have h1 : ¬ ((-1 : Int) * ((m * 2 ^ (e - min e f).toNat : Nat) : Int)
        + (-1) * ((n * 2 ^ (f - min e f).toNat : Nat) : Int) = 0) := by omega
    have h3 : ((-1 : Int) * ((m * 2 ^ (e - min e f).toNat : Nat) : Int)
        + (-1) * ((n * 2 ^ (f - min e f).toNat : Nat) : Int)).natAbs
        = m * 2 ^ (e - min e f).toNat + n * 2 ^ (f - min e f).toNat := by omega
    have h4 : decide ((-1 : Int) * ((m * 2 ^ (e - min e f).toNat : Nat) : Int)
        + (-1) * ((n * 2 ^ (f - min e f).toNat : Nat) : Int) < 0) = true := by
      rw [decide_eq_true_iff]; omega
    rw [if_neg h1, h3, h4]

theorem F64.add_same_sign (s : Bool) (m : Nat) (e : Int) (n : Nat) (f : Int) (hn : n ≠ 0) :
    F64.add (F64.fin s m e) (F64.fin s n f)
      = F64.setSign s (F64.add (F64.fin false m e) (F64.fin false n f)) := by
  rw [F64.add_same_sign_eq s m e n f hn, F64.add_same_sign_eq false m e n f hn]
  exact F64.roundDyadic_setSign s _ _

theorem F64.toInt_setSign (s : Bool) (a : F64) (hfin : a.isFinite = true)
    (hr : a.floorAbs < 2 ^ 63) :
    F64.toInt (F64.setSign s a) = (if s then -1 else 1) * (a.floorAbs : Int) := by
  cases a with
  | nan => simp [F64.isFinite] at hfin
  | inf b => simp [F64.isFinite] at hfin
  | fin b M E =>
    simp only [F64.floorAbs] at hr ⊢
    simp only [F64.setSign, F64.toInt]
    cases s with
    | false =>
      simp only [Bool.false_eq_true, if_false]
      rw [if_pos (by constructor <;> omega)]
      omega
    | true =>
      simp only [if_true]
      rw [if_pos (by constructor <;> omega)]
      omega

theorem toFixed_signed_floor (x : F64) (hx : x.isFinite = true)
    (hfin : (F64.add (F64.mul (F64.abs x) (F64.pow10 2)) F64.half).isFinite = true)
    (hr : (F64.add (F64.mul (F64.abs x) (F64.pow10 2)) F64.half).floorAbs < 2 ^ 63) :
    toFixed x 2 = F64.div
      (F64.ofInt (F64.sign x *
        ((F64.add (F64.mul (F64.abs x) (F64.pow10 2)) F64.half).floorAbs : Int)))
      (F64.pow10 2) := by
  cases x with
  | nan => simp [F64.isFinite] at hx
  | inf b => simp [F64.isFinite] at hx
  | fin s m e =>
    have habs : F64.abs (F64.fin s m e) = F64.fin false m e := rfl
    rw [habs] at hfin hr ⊢
    have hmul := F64.mul_hundred_setSign s m e
    have hpos := F64.mul_hundred_setSign false m e
    unfold toFixed round
    simp only []
    rw [hmul]
    cases hy : F64.mul (F64.fin false m e) (F64.pow10 2) with
    | nan => rw [hy] at hfin; simp [F64.add, F64.isFinite] at hfin
    | inf b => rw [hy] at hfin; simp [F64.add, F64.half, F64.isFinite] at hfin
    | fin b m1 e1 =>
      rw [hy] at hpos hfin hr
      simp only [F64.setSign, F64.fin.injEq, true_and, and_true] at hpos
      subst hpos
      have hc : F64.copysign F64.half (F64.fin s m1 e1) = F64.fin s (2 ^ 52) (-53) := rfl
      simp only [F64.setSign]
      rw [hc, F64.add_same_sign s m1 e1 (2 ^ 52) (-53) (by norm_num)]
      have hh : F64.half = F64.fin false (2 ^ 52) (-53) := rfl
      rw [hh] at hfin hr ⊢
      rw [F64.toInt_setSign s _ hfin hr]
      rfl

/-! ## Lemmas on the loop -/

theorem Intn_ok (n : Int) (rng : Rng) (h : 1 ≤ n) : ∃ r, Intn n rng = .ok r := by
  unfold Intn
  rw [if_neg (by omega)]
  exact ⟨_, rfl⟩

theorem flushCount_append (xs ys : List Event) :
    flushCount (xs ++ ys) = flushCount xs + flushCount ys := by
  simp [flushCount, List.filter_append]

theorem produced_append (xs ys : List Event) :
    produced (xs ++ ys) = produced xs ++ produced ys := by
  simp [produced, List.filterMap_append]

theorem acceptedCount_append (xs ys : List Event) :
    acceptedCount (xs ++ ys) = acceptedCount xs + acceptedCount ys := by
  simp [acceptedCount, List.filter_append]

theorem listenerCount_append (xs ys : List Event) :
    listenerCount (xs ++ ys) = listenerCount xs + listenerCount ys := by
  simp [listenerCount, List.filter_append]

theorem postToKafka_eq (vGeneral : Tp_general) (vKafka : TKafka) (json : Json)
    (inp : IterInput) (b : Tp_basket) (p : Tp_payment) (name jb jp : String) (s : LoopState)
    (hb : json.MarshalBasket b = .ok jb) (hp : json.MarshalPayment p = .ok jp)
    (hs : 1 ≤ vGeneral.Sleep) :
    postToKafka vGeneral vKafka json inp b p name s
      = .next (kafkaResult vKafka inp name jb jp s) := by
  obtain ⟨r, hr⟩ := Intn_ok vGeneral.Sleep inp.sleepMid hs
  unfold postToKafka kafkaResult
  simp only [hb, hp, hr, bytesOf, logIfError, List.nil_append]

theorem iteration_eq (vGeneral : Tp_general) (vKafka : TKafka) (varSeed : TPSeed)
    (json : Json) (inp : IterInput) (s : LoopState) (b : Tp_basket) (p : Tp_payment)
    (name jb jp : String)
    (hc : constructFakeBasket vGeneral varSeed inp.env = .ok (b, p, name))
    (hb : json.MarshalBasket b = .ok jb) (hp : json.MarshalPayment p = .ok jp)
    (hk : vGeneral.KafkaEnabled = 1) (hs : 1 ≤ vGeneral.Sleep) :
    iteration vGeneral vKafka varSeed json inp s
      = .next (if vGeneral.Json_to_file = 1
          then saveToFile json inp b p (kafkaResult vKafka inp name jb jp s)
          else kafkaResult vKafka inp name jb jp s) := by
  obtain ⟨r, hr⟩ := Intn_ok vGeneral.Sleep inp.sleepEnd hs
  unfold iteration
  simp only [hc, hb, hp, hk, if_true,
    postToKafka_eq vGeneral vKafka json inp b p name jb jp s hb hp hs, hr]

theorem saveToFile_vFlush (json : Json) (inp : IterInput) (b : Tp_basket) (p : Tp_payment)
    (s : LoopState) : (saveToFile json inp b p s).vFlush = s.vFlush := rfl

theorem saveToFile_flushCount (json : Json) (inp : IterInput) (b : Tp_basket)
    (p : Tp_payment) (s : LoopState) :
    flushCount (saveToFile json inp b p s).events = flushCount s.events := by
  unfold saveToFile logIfError
  simp only [flushCount_append]
  cases json.MarshalIndentBasket b <;> cases json.MarshalIndentPayment p <;>
    cases inp.basketWriteOk <;> cases inp.pmntWriteOk <;> simp [flushCount]

theorem saveToFile_produced (json : Json) (inp : IterInput) (b : Tp_basket)
    (p : Tp_payment) (s : LoopState) :
    produced (saveToFile json inp b p s).events = produced s.events := by
  unfold saveToFile logIfError
  simp only [produced_append]
  cases json.MarshalIndentBasket b <;> cases json.MarshalIndentPayment p <;>
    cases inp.basketWriteOk <;> cases inp.pmntWriteOk <;> simp [produced]

theorem saveToFile_acceptedCount (json : Json) (inp : IterInput) (b : Tp_basket)
    (p : Tp_payment) (s : LoopState) :
    acceptedCount (saveToFile json inp b p s).events = acceptedCount s.events := by
  unfold saveToFile logIfError
  simp only [acceptedCount_append]
  cases json.MarshalIndentBasket b <;> cases json.MarshalIndentPayment p <;>
    cases inp.basketWriteOk <;> cases inp.pmntWriteOk <;> simp [acceptedCount]

theorem kafkaResult_vFlush (vKafka : TKafka) (inp : IterInput) (name jb jp : String)
    (s : LoopState) :
    (kafkaResult vKafka inp name jb jp s).vFlush
      = if s.vFlush + 1 = vKafka.Flush_interval
        then (if inp.flushRemaining > 0 then s.vFlush + 1 else 0)
        else s.vFlush + 1 := by
  unfold kafkaResult flushBlock
  simp only []
  split_ifs <;> rfl

theorem kafkaResult_flushCount (vKafka : TKafka) (inp : IterInput) (name jb jp : String)
    (s : LoopState) :
    flushCount (kafkaResult vKafka inp name jb jp s).events
      = flushCount s.events + (if s.vFlush + 1 = vKafka.Flush_interval then 1 else 0) := by
  unfold kafkaResult flushBlock
  simp only []
  cases inp.basketSendOk <;> cases inp.paymentSendOk <;>
    split_ifs <;> simp [flushCount_append, flushCount]

theorem kafkaResult_produced (vKafka : TKafka) (inp : IterInput) (name jb jp : String)
    (s : LoopState) :
    produced (kafkaResult vKafka inp name jb jp s).events
      = produced s.events
        ++ [{ Topic := vKafka.BasketTopicname, Value := jb, Key := name },
            { Topic := vKafka.BasketTopicname, Value := jp, Key := "1001" }] := by
  unfold kafkaResult flushBlock
  simp only []
  cases inp.basketSendOk <;> cases inp.paymentSendOk <;>
    split_ifs <;> simp [produced_append, produced]

theorem kafkaResult_acceptedCount (vKafka : TKafka) (inp : IterInput) (name jb jp : String)
    (s : LoopState) :
    acceptedCount (kafkaResult vKafka inp name jb jp s).events
      = acceptedCount s.events + (if inp.basketSendOk then 1 else 0)
        + (if inp.paymentSendOk then 1 else 0) := by
  unfold kafkaResult flushBlock
  by_cases h1 : s.vFlush + 1 = vKafka.Flush_interval <;>
    by_cases h2 : inp.flushRemaining > 0 <;>
    cases inp.basketSendOk <;> cases inp.paymentSendOk <;>
    simp [h1, h2, acceptedCount_append, acceptedCount]

theorem passResult_vFlush (vGeneral : Tp_general) (vKafka : TKafka) (json : Json)
    (inp : IterInput) (b : Tp_basket) (p : Tp_payment) (name jb jp : String) (s : LoopState) :
    (passResult vGeneral vKafka json inp b p name jb jp s).vFlush
      = if s.vFlush + 1 = vKafka.Flush_interval
        then (if inp.flushRemaining > 0 then s.vFlush + 1 else 0)
        else s.vFlush + 1 := by
  unfold passResult
  split_ifs <;> simp only [saveToFile_vFlush, kafkaResult_vFlush] <;> simp_all

theorem passResult_flushCount (vGeneral : Tp_general) (vKafka : TKafka) (json : Json)
    (inp : IterInput) (b : Tp_basket) (p : Tp_payment) (name jb jp : String) (s : LoopState) :
    flushCount (passResult vGeneral vKafka json inp b p name jb jp s).events
      = flushCount s.events + (if s.vFlush + 1 = vKafka.Flush_interval then 1 else 0) := by
  unfold passResult
  split_ifs <;> simp only [saveToFile_flushCount, kafkaResult_flushCount] <;> simp_all

theorem passResult_produced (vGeneral : Tp_general) (vKafka : TKafka) (json : Json)
    (inp : IterInput) (b : Tp_basket) (p : Tp_payment) (name jb jp : String) (s : LoopState) :
    produced (passResult vGeneral vKafka json inp b p name jb jp s).events
      = produced s.events
        ++ [{ Topic := vKafka.BasketTopicname, Value := jb, Key := name },
            { Topic := vKafka.BasketTopicname, Value := jp, Key := "1001" }] := by
  unfold passResult
  split_ifs <;> simp only [saveToFile_produced, kafkaResult_produced]

theorem passResult_acceptedCount (vGeneral : Tp_general) (vKafka : TKafka) (json : Json)
    (inp : IterInput) (b : Tp_basket) (p : Tp_payment) (name jb jp : String) (s : LoopState) :
    acceptedCount (passResult vGeneral vKafka json inp b p name jb jp s).events
      = acceptedCount s.events + (if inp.basketSendOk then 1 else 0)
        + (if inp.paymentSendOk then 1 else 0) := by
  unfold passResult
  by_cases h : vGeneral.Json_to_file = 1
  · rw [if_pos h, saveToFile_acceptedCount, kafkaResult_acceptedCount]
  · rw [if_neg h, kafkaResult_acceptedCount]


/-! ## Claims about `constructFakeBasket` and `toFixed` -/

theorem itemsTotal_of_loop {ps : List TProductStruct} {pc mq : Int} {n : Nat} {rng rng1 : Rng}
    {items : List Tp_BasketItem} {nett : F64}
    (h : basketLoop ps pc mq n rng [] (F64.zero false) = .ok (items, nett, rng1)) :
    nett = itemsTotal items ∧ items.length = n ∧
      ∀ it ∈ items, 1 ≤ it.Quantity ∧ it.Quantity ≤ mq := by
  obtain ⟨new, hnew, hlen, hsum, hall⟩ := basketLoop_spec ps pc mq n rng [] _ _ _ _ h
  rw [List.nil_append] at hnew
  subst hnew
  exact ⟨hsum, hlen, fun it hit => (hall it hit).1⟩

/-- C1: on a non-empty catalog with a valid store index, `maxItemsPerBasket ≥ 1`
and `maxQuantity ≥ 1`, `constructFakeBasket` returns, and every basket it
returns has `Nett = toFixed(Σ Price_i * Quantity_i, 2)`,
`VAT = toFixed(Nett * Vatrate, 2)` and `Total = toFixed(Nett + VAT, 2)`,
exactly. -/
theorem constructFakeBasket_amounts (vGeneral : Tp_general) (varSeed : TPSeed) (env : Env)
    (h0 : 0 ≤ vGeneral.Store) (h1 : vGeneral.Store < varSeed.Stores.length)
    (hC : 0 < varSeed.Clerks.length) (hP : 0 < varSeed.Products.length)
    (hI : 1 ≤ vGeneral.Max_items_basket) (hQ : 1 ≤ vGeneral.Max_quantity) :
    (∃ r, constructFakeBasket vGeneral varSeed env = .ok r) ∧
    ∀ b p name, constructFakeBasket vGeneral varSeed env = .ok (b, p, name) →
      b.Nett = toFixed (itemsTotal b.BasketItems) 2 ∧
      b.VAT = toFixed (F64.mul b.Nett vGeneral.Vatrate) 2 ∧
      b.Total = toFixed (F64.add b.Nett b.VAT) 2 := by
  refine ⟨constructFakeBasket_ok vGeneral varSeed env h0 h1 hC hP hI hQ, ?_⟩
  intro b p name h
  obtain ⟨store, rng1, clerk, rng2, n, rng3, items, nett, rng4, tp, rng5, payT, payS,
    _, _, _, hloop, _, _, hb, _, _⟩ := constructFakeBasket_spec h
  have hn := (itemsTotal_of_loop hloop).1
  subst hb
  subst hn
  exact ⟨rfl, rfl, rfl⟩

theorem constructFakeBasket_amounts_witness :
    (0 ≤ demoConfig.Store ∧ demoConfig.Store < demoSeed.Stores.length ∧
      0 < demoSeed.Clerks.length ∧ 0 < demoSeed.Products.length ∧
      1 ≤ demoConfig.Max_items_basket ∧ 1 ≤ demoConfig.Max_quantity) ∧
    ((∃ r, constructFakeBasket demoConfig demoSeed demoEnv = .ok r) ∧
    ∀ b p name, constructFakeBasket demoConfig demoSeed demoEnv = .ok (b, p, name) →
      b.Nett = toFixed (itemsTotal b.BasketItems) 2 ∧
      b.VAT = toFixed (F64.mul b.Nett demoConfig.Vatrate) 2 ∧
      b.Total = toFixed (F64.add b.Nett b.VAT) 2) :=
  ⟨⟨by decide, by decide, by decide, by decide, by decide, by decide⟩,
    constructFakeBasket_amounts demoConfig demoSeed demoEnv (by decide) (by decide)
      (by decide) (by decide) (by decide) (by decide)⟩

/-- C2 (as stated, refuted): in `float64` arithmetic `toFixed(1.005, 2)` is
`1.0`, not `1.01`: the `float64` nearest `1.005` times `100` rounds to
`100.49999999999999`. -/
theorem toFixed_1005_counterexample :
    toFixed (F64.ofDecimal 1005 1000) 2 = F64.ofDecimal 100 100 ∧
    toFixed (F64.ofDecimal 1005 1000) 2 ≠ F64.ofDecimal 101 100 := by
  set_option maxRecDepth 100000 in decide

/-- C2 (amended): for every finite `float64` `x` whose scaled magnitude
`|x| * 100 + 0.5` (computed in `float64`) is finite and below `2^63`,
`toFixed(x, 2) = float64(sign(x) * floor(|x| * 100 + 0.5)) / 100`, every
operation except `floor` being the rounded `float64` one. -/
theorem toFixed_float64_formula (x : F64) (hx : x.isFinite = true)
    (hfin : (F64.add (F64.mul (F64.abs x) (F64.pow10 2)) F64.half).isFinite = true)
    (hr : (F64.add (F64.mul (F64.abs x) (F64.pow10 2)) F64.half).floorAbs < 2 ^ 63) :
    toFixed x 2 = F64.div
      (F64.ofInt (F64.sign x *
        ((F64.add (F64.mul (F64.abs x) (F64.pow10 2)) F64.half).floorAbs : Int)))
      (F64.pow10 2) :=
  toFixed_signed_floor x hx hfin hr

set_option maxRecDepth 100000 in
theorem toFixed_float64_formula_witness :
    toFixed (F64.fin true 4526117625507348 (-52)) 2 = F64.div
      (F64.ofInt (F64.sign (F64.fin true 4526117625507348 (-52)) *
        ((F64.add (F64.mul (F64.abs (F64.fin true 4526117625507348 (-52))) (F64.pow10 2))
          F64.half).floorAbs : Int)))
      (F64.pow10 2) :=
  toFixed_float64_formula (F64.fin true 4526117625507348 (-52)) (by decide) (by decide) (by decide)

/-- C3: on a non-empty catalog with a valid store index, `maxItemsPerBasket ≥ 1`
and `maxQuantity ≥ 1`, `constructFakeBasket` returns, and every pair it returns
has `payment.InvoiceNumber = basket.InvoiceNumber` and
`payment.Paid = basket.Total`. -/
theorem constructFakeBasket_pair_consistent (vGeneral : Tp_general) (varSeed : TPSeed)
    (env : Env)
    (h0 : 0 ≤ vGeneral.Store) (h1 : vGeneral.Store < varSeed.Stores.length)
    (hC : 0 < varSeed.Clerks.length) (hP : 0 < varSeed.Products.length)
    (hI : 1 ≤ vGeneral.Max_items_basket) (hQ : 1 ≤ vGeneral.Max_quantity) :
    (∃ r, constructFakeBasket vGeneral varSeed env = .ok r) ∧
    ∀ b p name, constructFakeBasket vGeneral varSeed env = .ok (b, p, name) →
      p.InvoiceNumber = b.InvoiceNumber ∧ p.Paid = b.Total := by
  refine ⟨constructFakeBasket_ok vGeneral varSeed env h0 h1 hC hP hI hQ, ?_⟩
  intro b p name h
  obtain ⟨store, rng1, clerk, rng2, n, rng3, items, nett, rng4, tp, rng5, payT, payS,
    _, _, _, _, _, _, hb, hp, _⟩ := constructFakeBasket_spec h
  subst hb
  subst hp
  exact ⟨rfl, rfl⟩

theorem constructFakeBasket_pair_consistent_witness :
    (0 ≤ demoConfig.Store ∧ demoConfig.Store < demoSeed.Stores.length ∧
      0 < demoSeed.Clerks.length ∧ 0 < demoSeed.Products.length ∧
      1 ≤ demoConfig.Max_items_basket ∧ 1 ≤ demoConfig.Max_quantity) ∧
    ((∃ r, constructFakeBasket demoConfig demoSeed demoEnv = .ok r) ∧
    ∀ b p name, constructFakeBasket demoConfig demoSeed demoEnv = .ok (b, p, name) →
      p.InvoiceNumber = b.InvoiceNumber ∧ p.Paid = b.Total) :=
  ⟨⟨by decide, by decide, by decide, by decide, by decide, by decide⟩,
    constructFakeBasket_pair_consistent demoConfig demoSeed demoEnv (by decide) (by decide)
      (by decide) (by decide) (by decide) (by decide)⟩

/-- C4: on a non-empty catalog with a valid store index, `maxItemsPerBasket ≥ 1`
and `maxQuantity ≥ 1`, `constructFakeBasket` returns, and every basket it
returns has as many item entries as the drawn item count `n`, with
`1 ≤ n ≤ maxItemsPerBasket` (one entry per draw, nothing merged), and every
item has `1 ≤ Quantity ≤ maxQuantity`. -/
theorem constructFakeBasket_item_bounds (vGeneral : Tp_general) (varSeed : TPSeed)
    (env : Env)
    (h0 : 0 ≤ vGeneral.Store) (h1 : vGeneral.Store < varSeed.Stores.length)
    (hC : 0 < varSeed.Clerks.length) (hP : 0 < varSeed.Products.length)
    (hI : 1 ≤ vGeneral.Max_items_basket) (hQ : 1 ≤ vGeneral.Max_quantity) :
    (∃ r, constructFakeBasket vGeneral varSeed env = .ok r) ∧
    ∀ b p name, constructFakeBasket vGeneral varSeed env = .ok (b, p, name) →
      (∃ store rng1 clerk rng2 n rng3,
        selectStore vGeneral varSeed env.rng = .ok (store, rng1) ∧
        selectClerk varSeed rng1 = .ok (clerk, rng2) ∧
        Number 1 vGeneral.Max_items_basket rng2 = .ok (n, rng3) ∧
        (b.BasketItems.length : Int) = n) ∧
      1 ≤ b.BasketItems.length ∧
      (b.BasketItems.length : Int) ≤ vGeneral.Max_items_basket ∧
      ∀ it ∈ b.BasketItems, 1 ≤ it.Quantity ∧ it.Quantity ≤ vGeneral.Max_quantity := by
  refine ⟨constructFakeBasket_ok vGeneral varSeed env h0 h1 hC hP hI hQ, ?_⟩
  intro b p name h
  obtain ⟨store, rng1, clerk, rng2, n, rng3, items, nett, rng4, tp, rng5, payT, payS,
    hs, hc, hn, hloop, _, _, hb, _, _⟩ := constructFakeBasket_spec h
  obtain ⟨_, hlen, hq⟩ := itemsTotal_of_loop hloop
  have hr := Number_range hn
  subst hb
  simp only
  refine ⟨⟨store, rng1, clerk, rng2, n, rng3, hs, hc, hn, by omega⟩, by omega, by omega, hq⟩

theorem constructFakeBasket_item_bounds_witness :
    (0 ≤ demoConfig.Store ∧ demoConfig.Store < demoSeed.Stores.length ∧
      0 < demoSeed.Clerks.length ∧ 0 < demoSeed.Products.length ∧
      1 ≤ demoConfig.Max_items_basket ∧ 1 ≤ demoConfig.Max_quantity) ∧
    ((∃ r, constructFakeBasket demoConfig demoSeed demoEnv = .ok r) ∧
    ∀ b p name, constructFakeBasket demoConfig demoSeed demoEnv = .ok (b, p, name) →
      (∃ store rng1 clerk rng2 n rng3,
        selectStore demoConfig demoSeed demoEnv.rng = .ok (store, rng1) ∧
        selectClerk demoSeed rng1 = .ok (clerk, rng2) ∧
        Number 1 demoConfig.Max_items_basket rng2 = .ok (n, rng3) ∧
        (b.BasketItems.length : Int) = n) ∧
      1 ≤ b.BasketItems.length ∧
      (b.BasketItems.length : Int) ≤ demoConfig.Max_items_basket ∧
      ∀ it ∈ b.BasketItems, 1 ≤ it.Quantity ∧ it.Quantity ≤ demoConfig.Max_quantity) :=
  ⟨⟨by decide, by decide, by decide, by decide, by decide, by decide⟩,
    constructFakeBasket_item_bounds demoConfig demoSeed demoEnv (by decide) (by decide)
      (by decide) (by decide) (by decide) (by decide)⟩


/-! ## Claims about the loop of `runLoader` -/

theorem iteration_healthy (vGeneral : Tp_general) (vKafka : TKafka) (varSeed : TPSeed)
    (json : Json) (inp : IterInput) (s : LoopState)
    (h0 : 0 ≤ vGeneral.Store) (h1 : vGeneral.Store < varSeed.Stores.length)
    (hC : 0 < varSeed.Clerks.length) (hP : 0 < varSeed.Products.length)
    (hI : 1 ≤ vGeneral.Max_items_basket) (hQ : 1 ≤ vGeneral.Max_quantity)
    (hk : vGeneral.KafkaEnabled = 1) (hs : 1 ≤ vGeneral.Sleep)
    (hjb : ∀ b, ∃ t, json.MarshalBasket b = .ok t)
    (hjp : ∀ p, ∃ t, json.MarshalPayment p = .ok t) :
    ∃ b p name jb jp,
      constructFakeBasket vGeneral varSeed inp.env = .ok (b, p, name) ∧
      json.MarshalBasket b = .ok jb ∧ json.MarshalPayment p = .ok jp ∧
      iteration vGeneral vKafka varSeed json inp s
        = .next (passResult vGeneral vKafka json inp b p name jb jp s) := by
  obtain ⟨⟨b, p, name⟩, hc⟩ := constructFakeBasket_ok vGeneral varSeed inp.env h0 h1 hC hP hI hQ
  obtain ⟨jb, hb⟩ := hjb b
  obtain ⟨jp, hp⟩ := hjp p
  exact ⟨b, p, name, jb, jp, hc, hb, hp,
    iteration_eq vGeneral vKafka varSeed json inp s b p name jb jp hc hb hp hk hs⟩

theorem runLoop_counts (vGeneral : Tp_general) (vKafka : TKafka) (varSeed : TPSeed)
    (json : Json) (inp : Nat → IterInput)
    (h0 : 0 ≤ vGeneral.Store) (h1 : vGeneral.Store < varSeed.Stores.length)
    (hC : 0 < varSeed.Clerks.length) (hP : 0 < varSeed.Products.length)
    (hI : 1 ≤ vGeneral.Max_items_basket) (hQ : 1 ≤ vGeneral.Max_quantity)
    (hk : vGeneral.KafkaEnabled = 1) (hs : 1 ≤ vGeneral.Sleep)
    (hjb : ∀ b, ∃ t, json.MarshalBasket b = .ok t)
    (hjp : ∀ p, ∃ t, json.MarshalPayment p = .ok t)
    (hfl : ∀ k, (inp k).flushRemaining ≤ 0) :
    ∀ (n count : Nat) (s : LoopState), 0 ≤ s.vFlush → s.vFlush < vKafka.Flush_interval →
      ∃ s1, runLoop vGeneral vKafka varSeed json inp n count s = .next s1 ∧
        s1.vFlush = (s.vFlush + n) % vKafka.Flush_interval ∧
        (flushCount s1.events : Int)
          = flushCount s.events + (s.vFlush + n) / vKafka.Flush_interval ∧
        (produced s1.events).length = (produced s.events).length + 2 * n := by
  intro n
  induction n with
  | zero =>
    intro count s hs0 hs1
    refine ⟨s, rfl, ?_, ?_, ?_⟩
    · simp only [Nat.cast_zero, add_zero]
      exact (Int.emod_eq_of_lt hs0 hs1).symm
    · simp only [Nat.cast_zero, add_zero]
      rw [Int.ediv_eq_zero_of_lt hs0 hs1]
      simp
    · simp
  | succ n ih =>
    intro count s hs0 hs1
    obtain ⟨b, p, name, jb, jp, _, _, _, hit⟩ :=
      iteration_healthy vGeneral vKafka varSeed json (inp count) s h0 h1 hC hP hI hQ hk hs
        hjb hjp
    have hv := passResult_vFlush vGeneral vKafka json (inp count) b p name jb jp s
    have hc := passResult_flushCount vGeneral vKafka json (inp count) b p name jb jp s
    have hp := passResult_produced vGeneral vKafka json (inp count) b p name jb jp s
    have hr := hfl count
    unfold runLoop
    rw [hit]
    simp only
    by_cases hreach : s.vFlush + 1 = vKafka.Flush_interval
    · rw [if_pos hreach, if_neg (by omega)] at hv
      rw [if_pos hreach] at hc
      obtain ⟨s1, hrun, hv1, hc1, hp1⟩ :=
        ih (count + 1) (passResult vGeneral vKafka json (inp count) b p name jb jp s)
          (by omega) (by omega)
      refine ⟨s1, hrun, ?_, ?_, ?_⟩
      · rw [hv1, hv]
        have e : s.vFlush + ((n + 1 : Nat) : Int) = (n : Int) + vKafka.Flush_interval * 1 := by
          push_cast; omega
        rw [e, Int.add_mul_emod_self_left, zero_add]
      · rw [hc1, hc, hv]
        have e : s.vFlush + ((n + 1 : Nat) : Int) = (n : Int) + vKafka.Flush_interval * 1 := by
          push_cast; omega
        rw [e, Int.add_mul_ediv_left _ _ (by omega), zero_add]
        push_cast
        omega
      · rw [hp1, hp]
        simp only [List.length_append, List.length_cons, List.length_nil]
        omega
    · rw [if_neg hreach] at hv hc
      obtain ⟨s1, hrun, hv1, hc1, hp1⟩ :=
        ih (count + 1) (passResult vGeneral vKafka json (inp count) b p name jb jp s)
          (by omega) (by omega)
      refine ⟨s1, hrun, ?_, ?_, ?_⟩
      · rw [hv1, hv]
        congr 1
        push_cast; omega
      · rw [hc1, hc, hv]
        have e : s.vFlush + 1 + (n : Int) = s.vFlush + ((n + 1 : Nat) : Int) := by
          push_cast; omega
        rw [e]
        omega
      · rw [hp1, hp]
        simp only [List.length_append, List.length_cons, List.length_nil]
        omega

theorem iteration_effects (vGeneral : Tp_general) (vKafka : TKafka) (varSeed : TPSeed)
    (json : Json) (inp : IterInput) (s : LoopState)
    (h0 : 0 ≤ vGeneral.Store) (h1 : vGeneral.Store < varSeed.Stores.length)
    (hC : 0 < varSeed.Clerks.length) (hP : 0 < varSeed.Products.length)
    (hI : 1 ≤ vGeneral.Max_items_basket) (hQ : 1 ≤ vGeneral.Max_quantity)
    (hk : vGeneral.KafkaEnabled = 1) (hs : 1 ≤ vGeneral.Sleep)
    (hjb : ∀ b, ∃ t, json.MarshalBasket b = .ok t)
    (hjp : ∀ p, ∃ t, json.MarshalPayment p = .ok t) :
    ∃ s1, iteration vGeneral vKafka varSeed json inp s = .next s1 ∧
      s1.vFlush = (if s.vFlush + 1 = vKafka.Flush_interval
        then (if inp.flushRemaining > 0 then s.vFlush + 1 else 0) else s.vFlush + 1) ∧
      flushCount s1.events
        = flushCount s.events + (if s.vFlush + 1 = vKafka.Flush_interval then 1 else 0) ∧
      acceptedCount s1.events
        = acceptedCount s.events + (if inp.basketSendOk then 1 else 0)
          + (if inp.paymentSendOk then 1 else 0) ∧
      ∃ b p name jb jp,
        constructFakeBasket vGeneral varSeed inp.env = .ok (b, p, name) ∧
        json.MarshalBasket b = .ok jb ∧ json.MarshalPayment p = .ok jp ∧
        produced s1.events = produced s.events
          ++ [{ Topic := vKafka.BasketTopicname, Value := jb, Key := name },
              { Topic := vKafka.BasketTopicname, Value := jp, Key := "1001" }] := by
  obtain ⟨b, p, name, jb, jp, hc, hb, hp, hit⟩ :=
    iteration_healthy vGeneral vKafka varSeed json inp s h0 h1 hC hP hI hQ hk hs hjb hjp
  exact ⟨_, hit, passResult_vFlush _ _ _ _ _ _ _ _ _ _, passResult_flushCount _ _ _ _ _ _ _ _ _ _,
    passResult_acceptedCount _ _ _ _ _ _ _ _ _ _, b, p, name, jb, jp, hc, hb, hp,
    passResult_produced _ _ _ _ _ _ _ _ _ _⟩

theorem runLoop_succ (vGeneral : Tp_general) (vKafka : TKafka) (varSeed : TPSeed)
    (json : Json) (inp : Nat → IterInput) (n count : Nat) (s s1 : LoopState)
    (h : iteration vGeneral vKafka varSeed json (inp count) s = .next s1) :
    runLoop vGeneral vKafka varSeed json inp (n + 1) count s
      = runLoop vGeneral vKafka varSeed json inp n (count + 1) s1 := by
  rw [runLoop, h]

theorem demoJson_basket (b : Tp_basket) : ∃ t, demoJson.MarshalBasket b = .ok t :=
  ⟨_, rfl⟩

theorem demoJson_payment (p : Tp_payment) : ∃ t, demoJson.MarshalPayment p = .ok t :=
  ⟨_, rfl⟩

/-- C5 (the code at the failing input): flushing every pass, with every flush
timing out with 3 messages left, the first pass flushes and leaves the counter
at 1 instead of 0; two passes later the counter is 3 and no further flush has
been made. -/
theorem flush_timeout_keeps_counter :
    ∃ s1 s3,
      runLoop demoConfig flushEveryPass demoSeed demoJson timeoutInput 1 0 initState
        = .next s1 ∧
      s1.vFlush = 1 ∧ flushCount s1.events = 1 ∧
      runLoop demoConfig flushEveryPass demoSeed demoJson timeoutInput 3 0 initState
        = .next s3 ∧
      s3.vFlush = 3 ∧ flushCount s3.events = 1 := by
  obtain ⟨s1, e1, v1, c1, _⟩ :=
    iteration_effects demoConfig flushEveryPass demoSeed demoJson (timeoutInput 0) initState
      (by decide) (by decide) (by decide) (by decide) (by decide) (by decide) rfl (by decide)
      demoJson_basket demoJson_payment
  obtain ⟨s2, e2, v2, c2, _⟩ :=
    iteration_effects demoConfig flushEveryPass demoSeed demoJson (timeoutInput 1) s1
      (by decide) (by decide) (by decide) (by decide) (by decide) (by decide) rfl (by decide)
      demoJson_basket demoJson_payment
  obtain ⟨s3, e3, v3, c3, _⟩ :=
    iteration_effects demoConfig flushEveryPass demoSeed demoJson (timeoutInput 2) s2
      (by decide) (by decide) (by decide) (by decide) (by decide) (by decide) rfl (by decide)
      demoJson_basket demoJson_payment
  have hv1 : s1.vFlush = 1 := by rw [v1]; decide
  have hc1 : flushCount s1.events = 1 := by rw [c1]; decide
  have hv2 : s2.vFlush = 2 := by rw [v2, hv1]; decide
  have hc2 : flushCount s2.events = 1 := by rw [c2, hv1, hc1]; decide
  have hv3 : s3.vFlush = 3 := by rw [v3, hv2]; decide
  have hc3 : flushCount s3.events = 1 := by rw [c3, hv2, hc2]; decide
  refine ⟨s1, s3, ?_, hv1, hc1, ?_, hv3, hc3⟩
  · rw [runLoop_succ _ _ _ _ _ 0 0 initState s1 e1]; rfl
  · rw [runLoop_succ _ _ _ _ _ 2 0 initState s1 e1, runLoop_succ _ _ _ _ _ 1 1 s1 s2 e2,
      runLoop_succ _ _ _ _ _ 0 2 s2 s3 e3]; rfl


/-- C6 (as stated, refuted): flushing every 2, after one pass with both sends
accepted there are 2 successful publishes and no flush, not `floor(2 / 2) = 1`;
and flushing every pass, after one pass with both sends rejected there is no
successful publish and yet one flush. -/
theorem flush_per_publish_counterexample :
    (∃ s, runLoop demoConfig demoKafka demoSeed demoJson demoInput 1 0 initState = .next s ∧
      acceptedCount s.events = 2 ∧ flushCount s.events = 0 ∧
      (flushCount s.events : Int) ≠ (acceptedCount s.events : Int) / demoKafka.Flush_interval) ∧
    (∃ s, runLoop demoConfig flushEveryPass demoSeed demoJson rejectInput 1 0 initState
        = .next s ∧
      acceptedCount s.events = 0 ∧ flushCount s.events = 1) := by
  obtain ⟨s1, e1, _, c1, a1, _⟩ :=
    iteration_effects demoConfig demoKafka demoSeed demoJson (demoInput 0) initState
      (by decide) (by decide) (by decide) (by decide) (by decide) (by decide) rfl (by decide)
      demoJson_basket demoJson_payment
  obtain ⟨s2, e2, _, c2, a2, _⟩ :=
    iteration_effects demoConfig flushEveryPass demoSeed demoJson (rejectInput 0) initState
      (by decide) (by decide) (by decide) (by decide) (by decide) (by decide) rfl (by decide)
      demoJson_basket demoJson_payment
  have hc1 : flushCount s1.events = 0 := by rw [c1]; decide
  have ha1 : acceptedCount s1.events = 2 := by rw [a1]; decide
  have hc2 : flushCount s2.events = 1 := by rw [c2]; decide
  have ha2 : acceptedCount s2.events = 0 := by rw [a2]; decide
  refine ⟨⟨s1, ?_, ha1, hc1, ?_⟩, ⟨s2, ?_, ha2, hc2⟩⟩
  · rw [runLoop_succ _ _ _ _ _ 0 0 initState s1 e1]; rfl
  · rw [hc1, ha1]; decide
  · rw [runLoop_succ _ _ _ _ _ 0 0 initState s2 e2]; rfl

/-- C6 (amended): with the broker enabled, `flushInterval ≥ 1`, generation
and encoding succeeding and every flush reporting 0 remaining, `n` passes of
the loop complete, submit `2 * n` messages, leave the counter at
`n mod flushInterval` and have triggered exactly `floor(n / flushInterval)`
flushes: the counter counts passes, whatever `p.Produce` returned. -/
theorem flush_every_interval_passes (vGeneral : Tp_general) (vKafka : TKafka)
    (varSeed : TPSeed) (json : Json) (inp : Nat → IterInput) (n : Nat)
    (h0 : 0 ≤ vGeneral.Store) (h1 : vGeneral.Store < varSeed.Stores.length)
    (hC : 0 < varSeed.Clerks.length) (hP : 0 < varSeed.Products.length)
    (hI : 1 ≤ vGeneral.Max_items_basket) (hQ : 1 ≤ vGeneral.Max_quantity)
    (hk : vGeneral.KafkaEnabled = 1) (hs : 1 ≤ vGeneral.Sleep)
    (hjb : ∀ b, ∃ t, json.MarshalBasket b = .ok t)
    (hjp : ∀ p, ∃ t, json.MarshalPayment p = .ok t)
    (hF : 1 ≤ vKafka.Flush_interval) (hfl : ∀ k, (inp k).flushRemaining ≤ 0) :
    ∃ s, runLoop vGeneral vKafka varSeed json inp n 0 initState = .next s ∧
      s.vFlush = (n : Int) % vKafka.Flush_interval ∧
      (flushCount s.events : Int) = (n : Int) / vKafka.Flush_interval ∧
      (produced s.events).length = 2 * n := by
  obtain ⟨s, hrun, hv, hc, hp⟩ :=
    runLoop_counts vGeneral vKafka varSeed json inp h0 h1 hC hP hI hQ hk hs hjb hjp hfl
      n 0 initState (le_refl _) hF
  refine ⟨s, hrun, ?_, ?_, ?_⟩
  · rw [hv]; simp [initState]
  · rw [hc]; simp [initState, flushCount]
  · rw [hp]; simp [initState, produced]

theorem flush_every_interval_passes_witness :
    ∃ s, runLoop demoConfig demoKafka demoSeed demoJson demoInput 5 0 initState = .next s ∧
      s.vFlush = ((5 : Nat) : Int) % demoKafka.Flush_interval ∧
      (flushCount s.events : Int) = ((5 : Nat) : Int) / demoKafka.Flush_interval ∧
      (produced s.events).length = 2 * 5 :=
  flush_every_interval_passes demoConfig demoKafka demoSeed demoJson demoInput 5
    (by decide) (by decide) (by decide) (by decide) (by decide) (by decide) rfl (by decide)
    demoJson_basket demoJson_payment (by decide) (fun _ => le_refl _)

theorem iteration_exit_of_marshal_error (vGeneral : Tp_general) (vKafka : TKafka)
    (varSeed : TPSeed) (json : Json) (inp : IterInput) (s : LoopState)
    (b : Tp_basket) (p : Tp_payment) (name : String)
    (hc : constructFakeBasket vGeneral varSeed inp.env = .ok (b, p, name))
    (hfail : (∃ e, json.MarshalBasket b = .error e) ∨ (∃ e, json.MarshalPayment p = .error e)) :
    iteration vGeneral vKafka varSeed json inp s = .exit 1 s := by
  unfold iteration
  rw [hc]
  simp only
  rcases hfail with ⟨e, he⟩ | ⟨e, he⟩
  · rw [he]
  · cases hb : json.MarshalBasket b with
    | error e1 => rfl
    | ok t => simp only [he]

/-- C7 (as stated, refuted): when the basket does not encode, the run does not
go on to the next record: a run of 3 passes ends in the first one with exit
status 1. -/
theorem marshal_failure_counterexample :
    runLoop demoConfig demoKafka demoSeed failingJson demoInput 3 0 initState
      = .exit 1 initState := by
  obtain ⟨⟨b, p, name⟩, hc⟩ := constructFakeBasket_ok demoConfig demoSeed (demoInput 0).env
    (by decide) (by decide) (by decide) (by decide) (by decide) (by decide)
  rw [runLoop, iteration_exit_of_marshal_error demoConfig demoKafka demoSeed failingJson
    (demoInput 0) initState b p name hc (Or.inl ⟨_, rfl⟩)]

/-- C7 (amended): if encoding the generated basket or payment fails, the pass
ends the process with exit status 1 before any sink step: the state is
unchanged (no message submitted, nothing written) and the run, however many
passes were still to come, ends there with that status. -/
theorem marshal_failure_exits (vGeneral : Tp_general) (vKafka : TKafka) (varSeed : TPSeed)
    (json : Json) (inp : Nat → IterInput) (n count : Nat) (s : LoopState)
    (h0 : 0 ≤ vGeneral.Store) (h1 : vGeneral.Store < varSeed.Stores.length)
    (hC : 0 < varSeed.Clerks.length) (hP : 0 < varSeed.Products.length)
    (hI : 1 ≤ vGeneral.Max_items_basket) (hQ : 1 ≤ vGeneral.Max_quantity)
    (hfail : ∀ b p name,
      constructFakeBasket vGeneral varSeed (inp count).env = .ok (b, p, name) →
      (∃ e, json.MarshalBasket b = .error e) ∨ (∃ e, json.MarshalPayment p = .error e)) :
    iteration vGeneral vKafka varSeed json (inp count) s = .exit 1 s ∧
    runLoop vGeneral vKafka varSeed json inp (n + 1) count s = .exit 1 s := by
  obtain ⟨⟨b, p, name⟩, hc⟩ :=
    constructFakeBasket_ok vGeneral varSeed (inp count).env h0 h1 hC hP hI hQ
  have hit := iteration_exit_of_marshal_error vGeneral vKafka varSeed json (inp count) s
    b p name hc (hfail b p name hc)
  refine ⟨hit, ?_⟩
  rw [runLoop, hit]

theorem marshal_failure_exits_witness :
    iteration demoConfig demoKafka demoSeed failingJson (demoInput 4) initState
      = .exit 1 initState ∧
    runLoop demoConfig demoKafka demoSeed failingJson demoInput (2 + 1) 4 initState
      = .exit 1 initState :=
  marshal_failure_exits demoConfig demoKafka demoSeed failingJson demoInput 2 4 initState
    (by decide) (by decide) (by decide) (by decide) (by decide) (by decide)
    (fun _ _ _ _ => Or.inl ⟨_, rfl⟩)

/-- C8 (the code at the failing input): with basket topic `SalesBaskets` and
payment topic `SalesPayments`, one pass submits the basket and the payment, and
both messages are addressed to `SalesBaskets`; none goes to the payment
topic. -/
theorem payment_sent_to_basket_topic :
    ∃ s, runLoop demoConfig demoKafka demoSeed demoJson demoInput 1 0 initState = .next s ∧
      (produced s.events).map KafkaMessage.Value = ["basket", "payment"] ∧
      (produced s.events).map KafkaMessage.Topic = ["SalesBaskets", "SalesBaskets"] ∧
      ∀ m ∈ produced s.events, m.Topic ≠ demoKafka.PaymentTopicname := by
  obtain ⟨s1, e1, _, _, _, b, p, name, jb, jp, _, hb, hp, hprod⟩ :=
    iteration_effects demoConfig demoKafka demoSeed demoJson (demoInput 0) initState
      (by decide) (by decide) (by decide) (by decide) (by decide) (by decide) rfl (by decide)
      demoJson_basket demoJson_payment
  have hjb : jb = "basket" := by
    have : demoJson.MarshalBasket b = .ok "basket" := rfl
    rw [this] at hb
    exact (Except.ok.inj hb).symm
  have hjp : jp = "payment" := by
    have : demoJson.MarshalPayment p = .ok "payment" := rfl
    rw [this] at hp
    exact (Except.ok.inj hp).symm
  subst hjb
  subst hjp
  refine ⟨s1, ?_, ?_, ?_, ?_⟩
  · rw [runLoop_succ _ _ _ _ _ 0 0 initState s1 e1]; rfl
  · rw [hprod]; rfl
  · rw [hprod]; rfl
  · intro m hm
    rw [hprod] at hm
    simp only [initState, produced, List.filterMap_nil, List.nil_append, List.mem_cons,
      List.mem_singleton, List.not_mem_nil, or_false] at hm
    have hne : demoKafka.BasketTopicname ≠ demoKafka.PaymentTopicname := by decide
    rcases hm with hm | hm <;> subst hm <;> exact hne

/-! ## Lemmas on the calendar -/

theorem isLeap_iff (y : Int) :
    isLeap y = true ↔ y % 4 = 0 ∧ (y % 100 ≠ 0 ∨ y % 400 = 0) := by
  simp [isLeap]

theorem year_arith (D n400 d1 r100 n100 d2 n4 d3 r1 n1 yd y1 : Int)
    (e1 : n400 = D / 146097) (e2 : d1 = D - 146097 * n400)
    (e3 : r100 = d1 / 36524) (e4 : n100 = r100 - r100 / 4) (e5 : d2 = d1 - 36524 * n100)
    (e6 : n4 = d2 / 1461) (e7 : d3 = d2 - 1461 * n4)
    (e8 : r1 = d3 / 365) (e9 : n1 = r1 - r1 / 4) (e10 : yd = d3 - 365 * n1)
    (e11 : y1 = 400 * n400 + 100 * n100 + 4 * n4 + n1 + 1) :
    (0 ≤ n100 ∧ n100 ≤ 3) ∧ (0 ≤ n4 ∧ n4 ≤ 24) ∧ (0 ≤ n1 ∧ n1 ≤ 3) ∧
    (0 ≤ yd ∧ yd ≤ 365) ∧
    (yd = 365 → n1 = 3 ∧ (n4 ≠ 24 ∨ n100 = 3)) ∧
    D = 146097 * n400 + 36524 * n100 + 1461 * n4 + 365 * n1 + yd ∧
    y1 = 400 * n400 + 100 * n100 + 4 * n4 + n1 + 1 := by
  have a2 : 0 ≤ d1 ∧ d1 < 146097 := by omega
  have a3 : 0 ≤ r100 ∧ r100 ≤ 3 ∨ r100 = 4 := by omega
  have a4 : 0 ≤ n100 ∧ n100 ≤ 3 := by omega
  have a5 : 0 ≤ d2 ∧ d2 ≤ 36524 ∧ (n100 < 3 → d2 < 36524) := by omega
  have a6 : 0 ≤ n4 ∧ n4 ≤ 24 := by omega
  have a7 : 0 ≤ d3 ∧ d3 < 1461 := by omega
  have a8 : 0 ≤ r1 ∧ r1 ≤ 4 := by omega
  have a9 : 0 ≤ n1 ∧ n1 ≤ 3 := by omega
  have a10 : 0 ≤ yd ∧ yd ≤ 365 := by omega
  refine ⟨a4, a6, a9, a10, ?_, by omega, e11⟩
  intro h
  omega

theorem daysSinceEpoch_arith (n400 n100 n4 n1 : Int)
    (h100 : 0 ≤ n100 ∧ n100 ≤ 3) (h4 : 0 ≤ n4 ∧ n4 ≤ 24) (h1 : 0 ≤ n1 ∧ n1 ≤ 3) :
    daysSinceEpoch (400 * n400 + 100 * n100 + 4 * n4 + n1 + 1)
      = 146097 * n400 + 36524 * n100 + 1461 * n4 + 365 * n1 := by
  simp only [daysSinceEpoch, daysPer400Years, daysPer100Years, daysPer4Years]
  have b1 : (400 * n400 + 100 * n100 + 4 * n4 + n1 + 1 - 1) / 400 = n400 := by omega
  rw [b1]
  have b2 : (400 * n400 + 100 * n100 + 4 * n4 + n1 + 1 - 1 - 400 * n400) / 100 = n100 := by
    omega
  rw [b2]
  have b3 : (400 * n400 + 100 * n100 + 4 * n4 + n1 + 1 - 1 - 400 * n400 - 100 * n100) / 4
      = n4 := by omega
  rw [b3]
  omega

theorem isLeap_arith (n400 n100 n4 n1 : Int)
    (h100 : 0 ≤ n100 ∧ n100 ≤ 3) (h4 : 0 ≤ n4 ∧ n4 ≤ 24) (h1 : 0 ≤ n1 ∧ n1 ≤ 3) :
    isLeap (400 * n400 + 100 * n100 + 4 * n4 + n1 + 1) = true
      ↔ n1 = 3 ∧ (n4 ≠ 24 ∨ n100 = 3) := by
  rw [isLeap_iff]
  omega

theorem yearDay_spec (D : Int) :
    0 ≤ (yearDay D).2 ∧
    (yearDay D).2 < 365 + (if isLeap (yearDay D).1 = true then 1 else 0) ∧
    daysSinceEpoch (yearDay D).1 + (yearDay D).2 = D := by
  obtain ⟨a4, a6, a9, a10, hl, hsum, hy⟩ :=
    year_arith D _ _ _ _ _ _ _ _ _ (yearDay D).2 (yearDay D).1 rfl rfl rfl rfl rfl rfl
      rfl rfl rfl rfl rfl
  have hdse := daysSinceEpoch_arith (D / 146097) _ _ _ a4 a6 a9
  have hleap := isLeap_arith (D / 146097) _ _ _ a4 a6 a9
  rw [← hy] at hdse hleap
  refine ⟨a10.1, ?_, by rw [hdse]; omega⟩
  by_cases h : isLeap (yearDay D).1 = true
  · rw [if_pos h]; omega
  · rw [if_neg h]
    have hne : (yearDay D).2 ≠ 365 := fun h365 => h (hleap.mpr (hl h365))
    omega

set_option maxRecDepth 1000000 in
theorem monthDay_table (leap : Bool) :
    ∀ n : Nat, n < 365 + (if leap = true then 1 else 0) →
      1 ≤ (monthDay leap n).1 ∧ (monthDay leap n).1 ≤ 12 ∧
      daysBeforeMonth leap ((monthDay leap n).1 - 1) ≤ (n : Int) ∧
      (n : Int) < daysBeforeMonth leap (monthDay leap n).1 ∧
      (monthDay leap n).2 = (n : Int) - daysBeforeMonth leap ((monthDay leap n).1 - 1) + 1 := by
  cases leap <;> decide

theorem monthDay_spec (leap : Bool) (yd : Int) (h0 : 0 ≤ yd)
    (h1 : yd < 365 + (if leap = true then 1 else 0)) :
    1 ≤ (monthDay leap yd).1 ∧ (monthDay leap yd).1 ≤ 12 ∧
    daysBeforeMonth leap ((monthDay leap yd).1 - 1) ≤ yd ∧
    yd < daysBeforeMonth leap (monthDay leap yd).1 ∧
    (monthDay leap yd).2 = yd - daysBeforeMonth leap ((monthDay leap yd).1 - 1) + 1 := by
  have h := monthDay_table leap yd.toNat (by cases leap <;> simp at h1 ⊢ <;> omega)
  rw [Int.toNat_of_nonneg h0] at h
  exact h

theorem daysSinceEpoch_succ (y : Int) :
    daysSinceEpoch (y + 1) = daysSinceEpoch y + 365 + (if isLeap y = true then 1 else 0) := by
  have hl := isLeap_iff y
  simp only [daysSinceEpoch, daysPer400Years, daysPer100Years, daysPer4Years]
  by_cases h : isLeap y = true
  · rw [if_pos h]
    have h2 := hl.mp h
    omega
  · rw [if_neg h]
    have h2 : ¬ (y % 4 = 0 ∧ (y % 100 ≠ 0 ∨ y % 400 = 0)) := fun x => h (hl.mpr x)
    omega

theorem daysSinceEpoch_mono (y z : Int) (hyz : y ≤ z) :
    daysSinceEpoch y ≤ daysSinceEpoch z := by
  have key : ∀ n : Nat, daysSinceEpoch y ≤ daysSinceEpoch (y + n) := by
    intro n
    induction n with
    | zero => simp
    | succ n ih =>
      have h := daysSinceEpoch_succ (y + n)
      have e : y + ((n + 1 : Nat) : Int) = y + (n : Int) + 1 := by push_cast; omega
      rw [e]
      split_ifs at h <;> omega
  have hz := key (z - y).toNat
  rw [Int.toNat_of_nonneg (by omega)] at hz
  have e : y + (z - y) = z := by omega
  rw [e] at hz
  exact hz

theorem daysBeforeMonth_table (leap : Bool) :
    ∀ j : Nat, j < 13 → ∀ k : Nat, k < 13 → j ≤ k →
      daysBeforeMonth leap j ≤ daysBeforeMonth leap k := by
  cases leap <;> decide

theorem daysBeforeMonth_mono (leap : Bool) (j k : Int) (hj : 0 ≤ j) (hjk : j ≤ k)
    (hk : k ≤ 12) : daysBeforeMonth leap j ≤ daysBeforeMonth leap k := by
  have h := daysBeforeMonth_table leap j.toNat (by omega) k.toNat (by omega) (by omega)
  rw [Int.toNat_of_nonneg hj, Int.toNat_of_nonneg (by omega)] at h
  exact h

theorem daysBeforeMonth_zero (leap : Bool) : daysBeforeMonth leap 0 = 0 := by
  cases leap <;> decide

theorem daysBeforeMonth_twelve (leap : Bool) :
    daysBeforeMonth leap 12 = 365 + (if leap = true then 1 else 0) := by
  cases leap <;> decide

theorem monthStart_next_year (y : Int) :
    monthStart y 12 = monthStart (y + 1) 0 := by
  unfold monthStart
  rw [daysBeforeMonth_zero, daysBeforeMonth_twelve, daysSinceEpoch_succ y]
  omega

/-- The month starts are ordered like the pairs `(year, month)`. -/
theorem monthStart_mono (y z j k : Int) (hj : 0 ≤ j ∧ j ≤ 12)
    (hk : 0 ≤ k ∧ k ≤ 12) (h : y < z ∨ (y = z ∧ j ≤ k)) :
    monthStart y j ≤ monthStart z k := by
  rcases h with h | ⟨h, hjk⟩
  · have h1 : monthStart y j ≤ monthStart y 12 := by
      unfold monthStart
      have := daysBeforeMonth_mono (isLeap y) j 12 hj.1 hj.2 (le_refl _)
      omega
    have h2 := monthStart_next_year y
    have h3 : monthStart (y + 1) 0 ≤ monthStart z 0 := by
      unfold monthStart
      rw [daysBeforeMonth_zero, daysBeforeMonth_zero]
      have := daysSinceEpoch_mono (y + 1) z (by omega)
      omega
    have h4 : monthStart z 0 ≤ monthStart z k := by
      unfold monthStart
      have := daysBeforeMonth_mono (isLeap z) 0 k (le_refl _) hk.1 hk.2
      omega
    omega
  · subst h
    unfold monthStart
    have := daysBeforeMonth_mono (isLeap y) j k hj.1 hjk hk.2
    omega

theorem absDate_spec (t : Int) :
    1 ≤ (absDate t).2.1 ∧ (absDate t).2.1 ≤ 12 ∧
    monthStart (absDate t).1 ((absDate t).2.1 - 1) ≤ t / 86400 ∧
    t / 86400 < monthStart (absDate t).1 (absDate t).2.1 ∧
    (absDate t).2.2 = t / 86400 - monthStart (absDate t).1 ((absDate t).2.1 - 1) + 1 := by
  obtain ⟨y0, yl, ysum⟩ := yearDay_spec (t / 86400)
  obtain ⟨m1, m12, mlo, mhi, md⟩ :=
    monthDay_spec (isLeap (yearDay (t / 86400)).1) (yearDay (t / 86400)).2 y0 yl
  show 1 ≤ (monthDay (isLeap (yearDay (t / 86400)).1) (yearDay (t / 86400)).2).1 ∧
    (monthDay (isLeap (yearDay (t / 86400)).1) (yearDay (t / 86400)).2).1 ≤ 12 ∧
    daysSinceEpoch (yearDay (t / 86400)).1 + daysBeforeMonth (isLeap (yearDay (t / 86400)).1)
      ((monthDay (isLeap (yearDay (t / 86400)).1) (yearDay (t / 86400)).2).1 - 1) ≤ t / 86400 ∧
    t / 86400 < daysSinceEpoch (yearDay (t / 86400)).1
      + daysBeforeMonth (isLeap (yearDay (t / 86400)).1)
        (monthDay (isLeap (yearDay (t / 86400)).1) (yearDay (t / 86400)).2).1 ∧
    (monthDay (isLeap (yearDay (t / 86400)).1) (yearDay (t / 86400)).2).2
      = t / 86400 - (daysSinceEpoch (yearDay (t / 86400)).1
        + daysBeforeMonth (isLeap (yearDay (t / 86400)).1)
          ((monthDay (isLeap (yearDay (t / 86400)).1) (yearDay (t / 86400)).2).1 - 1)) + 1
  refine ⟨m1, m12, by omega, by omega, by omega⟩

theorem absClock_spec (t : Int) :
    (0 ≤ (absClock t).1 ∧ (absClock t).1 < 24) ∧
    (0 ≤ (absClock t).2.1 ∧ (absClock t).2.1 < 60) ∧
    (0 ≤ (absClock t).2.2 ∧ (absClock t).2.2 < 60) ∧
    (absClock t).1 * 3600 + (absClock t).2.1 * 60 + (absClock t).2.2 = t % 86400 := by
  simp only [absClock, secondsPerDay]
  omega

theorem norm_of_nonneg (hi lo base : Int) (hlo : 0 ≤ lo) :
    norm hi lo base = (hi + lo / base, lo % base) := by
  unfold norm
  have hn : ¬ lo < 0 := by omega
  simp only [if_neg hn]
  by_cases h : lo ≥ base
  · rw [if_pos h]
    rw [Int.emod_def]
    ext
    · rfl
    · show lo - lo / base * base = lo - base * (lo / base)
      ring
  · rw [if_neg h]
    have h1 : lo / base = 0 := Int.ediv_eq_zero_of_lt hlo (by omega)
    have h2 : lo % base = lo := Int.emod_eq_of_lt hlo (by omega)
    rw [h1, h2]
    simp

theorem dateAbs_eq (y mth dd h mi s : Int) (hm : 1 ≤ mth) (hh : 0 ≤ h ∧ h < 24)
    (hmi : 0 ≤ mi ∧ mi < 60) (hs : 0 ≤ s ∧ s < 60) :
    dateAbs y mth dd h mi s
      = (monthStart (y + (mth - 1) / 12) ((mth - 1) % 12) + (dd - 1)) * 86400
        + (h * 3600 + mi * 60 + s) := by
  unfold dateAbs
  rw [norm_of_nonneg y (mth - 1) 12 (by omega),
    norm_of_nonneg mi s 60 hs.1]
  simp only
  have s1 : s / 60 = 0 := by omega
  have s2 : s % 60 = s := by omega
  rw [s1, s2, add_zero, norm_of_nonneg h mi 60 hmi.1]
  simp only
  have m1 : mi / 60 = 0 := by omega
  have m2 : mi % 60 = mi := by omega
  rw [m1, m2, add_zero, norm_of_nonneg dd h 24 hh.1]
  simp only
  have h1 : h / 24 = 0 := by omega
  have h2 : h % 24 = h := by omega
  rw [h1, h2, add_zero]
  unfold monthStart daysBeforeMonth
  simp only [secondsPerDay, add_sub_cancel_right]
  have hk : ((mth - 1) % 12 + 1 ≥ 3) ↔ ((mth - 1) % 12 ≥ 2) := by omega
  cases isLeap (y + (mth - 1) / 12) with
  | false => simp
  | true =>
    simp only [Bool.true_and, decide_eq_true_eq]
    by_cases hge : (mth - 1) % 12 ≥ 2
    · rw [if_pos (hk.mpr hge), if_pos hge]; ring
    · rw [if_neg (fun x => hge (hk.mp x)), if_neg hge]; ring

theorem shiftAbs_eq (t a b : Int) (ha : 0 ≤ a) :
    shiftAbs t 0 a b
      = (monthStart ((absDate t).1 + ((absDate t).2.1 + a - 1) / 12)
          (((absDate t).2.1 + a - 1) % 12) + ((absDate t).2.2 + b - 1)) * 86400
        + t % 86400 := by
  obtain ⟨m1, m12, mlo, mhi, md⟩ := absDate_spec t
  obtain ⟨hh, hmi, hs, hsum⟩ := absClock_spec t
  have e : shiftAbs t 0 a b = dateAbs (absDate t).1 ((absDate t).2.1 + a) ((absDate t).2.2 + b)
      (absClock t).1 (absClock t).2.1 (absClock t).2.2 := by
    unfold shiftAbs
    simp only [add_zero]
  rw [e, dateAbs_eq _ _ _ _ _ _ (by omega) hh hmi hs, hsum]

theorem shiftAbs_ge (t a b : Int) (ha : 0 ≤ a) (hb : 0 ≤ b) :
    t ≤ shiftAbs t 0 a b := by
  obtain ⟨m1, m12, mlo, mhi, md⟩ := absDate_spec t
  rw [shiftAbs_eq t a b ha]
  have hmono := monthStart_mono (absDate t).1 ((absDate t).1 + ((absDate t).2.1 + a - 1) / 12)
    ((absDate t).2.1 - 1) (((absDate t).2.1 + a - 1) % 12) (by omega) (by omega) (by omega)
  omega

theorem fields_lex (t1 t2 : Int) (h : t1 ≤ t2) :
    (absDate t1).1 < (absDate t2).1 ∨ ((absDate t1).1 = (absDate t2).1 ∧
    ((absDate t1).2.1 < (absDate t2).2.1 ∨ ((absDate t1).2.1 = (absDate t2).2.1 ∧
    ((absDate t1).2.2 < (absDate t2).2.2 ∨ ((absDate t1).2.2 = (absDate t2).2.2 ∧
    ((absClock t1).1 < (absClock t2).1 ∨ ((absClock t1).1 = (absClock t2).1 ∧
    ((absClock t1).2.1 < (absClock t2).2.1 ∨ ((absClock t1).2.1 = (absClock t2).2.1 ∧
    (absClock t1).2.2 ≤ (absClock t2).2.2))))))))) := by
  obtain ⟨m1, m12, lo1, hi1, d1⟩ := absDate_spec t1
  obtain ⟨m2, m22, lo2, hi2, d2⟩ := absDate_spec t2
  obtain ⟨a1, b1, c1, e1⟩ := absClock_spec t1
  obtain ⟨a2, b2, c2, e2⟩ := absClock_spec t2
  have hD : t1 / 86400 ≤ t2 / 86400 := by omega
  rcases lt_trichotomy (absDate t1).1 (absDate t2).1 with hy | hy | hy
  · exact Or.inl hy
  · refine Or.inr ⟨hy, ?_⟩
    rcases lt_trichotomy (absDate t1).2.1 (absDate t2).2.1 with hm | hm | hm
    · exact Or.inl hm
    · refine Or.inr ⟨hm, ?_⟩
      rw [hy, hm] at d1
      omega
    · exfalso
      have := monthStart_mono (absDate t2).1 (absDate t1).1 (absDate t2).2.1
        ((absDate t1).2.1 - 1) (by omega) (by omega) (Or.inr ⟨hy.symm, by omega⟩)
      omega
  · exfalso
    have := monthStart_mono (absDate t2).1 (absDate t1).1 (absDate t2).2.1
      ((absDate t1).2.1 - 1) (by omega) (by omega) (Or.inl hy)
    omega

theorem daysBeforeMonth_step (leap : Bool) :
    ∀ k : Nat, k < 12 → daysBeforeMonth leap ((k : Int) + 1) ≤ daysBeforeMonth leap k + 31 := by
  cases leap <;> decide

theorem day_le (t : Int) : 1 ≤ (absDate t).2.2 ∧ (absDate t).2.2 ≤ 31 := by
  obtain ⟨m1, m12, lo1, hi1, d1⟩ := absDate_spec t
  have hs := daysBeforeMonth_step (isLeap (absDate t).1) ((absDate t).2.1 - 1).toNat (by omega)
  rw [Int.toNat_of_nonneg (by omega)] at hs
  have e : (absDate t).2.1 - 1 + 1 = (absDate t).2.1 := by omega
  rw [e] at hs
  unfold monthStart at lo1 hi1 d1
  omega

theorem monthStart_10000 : monthStart 10000 0 = 3652059 := by decide

theorem monthStart_9999 : monthStart 9999 0 = 3651694 := by decide

theorem year_lt_of_lt (t y : Int) (h : t < monthStart y 0 * 86400) :
    (absDate t).1 < y := by
  obtain ⟨m1, m12, lo1, hi1, d1⟩ := absDate_spec t
  by_contra hc
  have := monthStart_mono y (absDate t).1 0 ((absDate t).2.1 - 1) (by omega) (by omega)
    (by omega)
  omega

/-! ## Lemmas on the timestamp text -/

theorem cons_lt_cons (c : Char) {x y : List Char} (h : x < y) : c :: x < c :: y :=
  List.Lex.cons h

theorem append_lt_append_left (a : List Char) {x y : List Char} (h : x < y) :
    a ++ x < a ++ y := by
  induction a with
  | nil => exact h
  | cons c a ih => exact cons_lt_cons c ih

theorem lt_append_of_lt : ∀ (a b : List Char) (x y : List Char),
    a.length = b.length → a < b → a ++ x < b ++ y := by
  intro a b x y hlen h
  induction h with
  | nil => simp at hlen
  | cons _ ih =>
    simp only [List.length_cons, add_left_inj] at hlen
    exact List.Lex.cons (ih hlen)
  | rel hab => exact List.Lex.rel hab

theorem digitChar_table : ∀ i : Nat, i < 10 → ∀ j : Nat, j < 10 → i < j →
    digitChar i < digitChar j := by decide

theorem digitChar_lt (i j : Int) (hi : 0 ≤ i) (hij : i < j) (hj : j ≤ 9) :
    digitChar i < digitChar j := by
  have h := digitChar_table i.toNat (by omega) j.toNat (by omega) (by omega)
  rw [Int.toNat_of_nonneg hi, Int.toNat_of_nonneg (by omega)] at h
  exact h

theorem appendInt_two (x : Int) (h0 : 0 ≤ x) (h1 : x < 100) :
    appendInt x 2 = [digitChar (x / 10), digitChar (x % 10)] := by
  unfold appendInt
  rw [if_pos ⟨rfl, h0, h1⟩]

theorem appendInt_four (x : Int) (h0 : 0 ≤ x) (h1 : x < 10000) :
    appendInt x 4 = [digitChar (x / 1000), digitChar (x / 100 % 10), digitChar (x / 10 % 10),
      digitChar (x % 10)] := by
  unfold appendInt
  rw [if_neg (by omega), if_pos ⟨rfl, h0, h1⟩]

theorem appendInt_two_lt (x y : Int) (h0 : 0 ≤ x) (hxy : x < y) (h1 : y < 100) :
    appendInt x 2 < appendInt y 2 := by
  rw [appendInt_two x h0 (by omega), appendInt_two y (by omega) h1]
  by_cases h : x / 10 < y / 10
  · exact List.Lex.rel (digitChar_lt _ _ (by omega) h (by omega))
  · have e : x / 10 = y / 10 := by omega
    rw [e]
    exact cons_lt_cons _ (List.Lex.rel (digitChar_lt _ _ (by omega) (by omega) (by omega)))

theorem appendInt_four_lt (x y : Int) (h0 : 0 ≤ x) (hxy : x < y) (h1 : y < 10000) :
    appendInt x 4 < appendInt y 4 := by
  rw [appendInt_four x h0 (by omega), appendInt_four y (by omega) h1]
  by_cases ha : x / 1000 < y / 1000
  · exact List.Lex.rel (digitChar_lt _ _ (by omega) ha (by omega))
  · have ea : x / 1000 = y / 1000 := by omega
    rw [ea]
    refine cons_lt_cons _ ?_
    by_cases hb : x / 100 % 10 < y / 100 % 10
    · exact List.Lex.rel (digitChar_lt _ _ (by omega) hb (by omega))
    · have eb : x / 100 % 10 = y / 100 % 10 := by omega
      rw [eb]
      refine cons_lt_cons _ ?_
      by_cases hc : x / 10 % 10 < y / 10 % 10
      · exact List.Lex.rel (digitChar_lt _ _ (by omega) hc (by omega))
      · have ec : x / 10 % 10 = y / 10 % 10 := by omega
        rw [ec]
        exact cons_lt_cons _
          (List.Lex.rel (digitChar_lt _ _ (by omega) (by omega) (by omega)))

theorem appendInt_two_length (x : Int) (h0 : 0 ≤ x) (h1 : x < 100) :
    (appendInt x 2).length = 2 := by
  rw [appendInt_two x h0 h1]; rfl

theorem appendInt_four_length (x : Int) (h0 : 0 ≤ x) (h1 : x < 10000) :
    (appendInt x 4).length = 4 := by
  rw [appendInt_four x h0 h1]; rfl

theorem layoutChars_length (y m d h i s : Int) (hy : 0 ≤ y ∧ y < 10000)
    (hm : 0 ≤ m ∧ m < 100) (hd : 0 ≤ d ∧ d < 100) (hh : 0 ≤ h ∧ h < 100)
    (hi : 0 ≤ i ∧ i < 100) (hs : 0 ≤ s ∧ s < 100) :
    (layoutChars y m d h i s).length = 19 := by
  unfold layoutChars
  simp [appendInt_four_length y hy.1 hy.2, appendInt_two_length m hm.1 hm.2,
    appendInt_two_length d hd.1 hd.2, appendInt_two_length h hh.1 hh.2,
    appendInt_two_length i hi.1 hi.2, appendInt_two_length s hs.1 hs.2]

/-- Field-wise lexicographic order of two timestamps gives the order of their
texts. -/
theorem layoutChars_le (y1 m1 d1 h1 i1 s1 y2 m2 d2 h2 i2 s2 : Int)
    (hy1 : 0 ≤ y1) (hy2 : y2 < 10000) (hm1 : 0 ≤ m1) (hm2 : m2 < 100)
    (hd1 : 0 ≤ d1) (hd2 : d2 < 100) (hh1 : 0 ≤ h1) (hh2 : h2 < 100)
    (hi1 : 0 ≤ i1) (hi2 : i2 < 100) (hs1 : 0 ≤ s1) (hs2 : s2 < 100)
    (hlex : y1 < y2 ∨ (y1 = y2 ∧ (m1 < m2 ∨ (m1 = m2 ∧ (d1 < d2 ∨ (d1 = d2 ∧
      (h1 < h2 ∨ (h1 = h2 ∧ (i1 < i2 ∨ (i1 = i2 ∧ s1 ≤ s2)))))))))) :
    layoutChars y1 m1 d1 h1 i1 s1 = layoutChars y2 m2 d2 h2 i2 s2 ∨
    layoutChars y1 m1 d1 h1 i1 s1 < layoutChars y2 m2 d2 h2 i2 s2 := by
  unfold layoutChars
  rcases hlex with h | ⟨rfl, hlex⟩
  · right
    exact lt_append_of_lt _ _ _ _
      (by rw [appendInt_four_length y1 hy1 (by omega), appendInt_four_length y2 (by omega) hy2])
      (appendInt_four_lt y1 y2 hy1 h hy2)
  rcases hlex with h | ⟨rfl, hlex⟩
  · right
    exact append_lt_append_left _ (cons_lt_cons _ (lt_append_of_lt _ _ _ _
      (by rw [appendInt_two_length m1 hm1 (by omega), appendInt_two_length m2 (by omega) hm2])
      (appendInt_two_lt m1 m2 hm1 h hm2)))
  rcases hlex with h | ⟨rfl, hlex⟩
  · right
    exact append_lt_append_left _ (cons_lt_cons _ (append_lt_append_left _ (cons_lt_cons _
      (lt_append_of_lt _ _ _ _
        (by rw [appendInt_two_length d1 hd1 (by omega), appendInt_two_length d2 (by omega) hd2])
        (appendInt_two_lt d1 d2 hd1 h hd2)))))
  rcases hlex with h | ⟨rfl, hlex⟩
  · right
    exact append_lt_append_left _ (cons_lt_cons _ (append_lt_append_left _ (cons_lt_cons _
      (append_lt_append_left _ (cons_lt_cons _ (lt_append_of_lt _ _ _ _
        (by rw [appendInt_two_length h1 hh1 (by omega), appendInt_two_length h2 (by omega) hh2])
        (appendInt_two_lt h1 h2 hh1 h hh2)))))))
  rcases hlex with h | ⟨rfl, hlex⟩
  · right
    exact append_lt_append_left _ (cons_lt_cons _ (append_lt_append_left _ (cons_lt_cons _
      (append_lt_append_left _ (cons_lt_cons _ (append_lt_append_left _ (cons_lt_cons _
        (lt_append_of_lt _ _ _ _
          (by rw [appendInt_two_length i1 hi1 (by omega),
            appendInt_two_length i2 (by omega) hi2])
          (appendInt_two_lt i1 i2 hi1 h hi2)))))))))
  rcases lt_or_eq_of_le hlex with h | rfl
  · right
    exact append_lt_append_left _ (cons_lt_cons _ (append_lt_append_left _ (cons_lt_cons _
      (append_lt_append_left _ (cons_lt_cons _ (append_lt_append_left _ (cons_lt_cons _
        (append_lt_append_left _ (cons_lt_cons _ (appendInt_two_lt s1 s2 hs1 h hs2))))))))))
  · left; rfl

theorem String_append_le (a b : List Char) (off : String) (hlen : a.length = b.length)
    (h : a = b ∨ a < b) : String.mk a ++ off ≤ String.mk b ++ off := by
  rcases h with rfl | h
  · exact le_refl _
  · apply le_of_lt
    rw [String.lt_iff_toList_lt]
    show a ++ off.data < b ++ off.data
    exact lt_append_of_lt a b _ _ hlen h

theorem monthStart_9999_four : monthStart 9999 4 = 3651814 := by decide

theorem monthStart_9998_eleven : monthStart 9998 11 = 3651663 := by decide

theorem shiftAbs_lt_limit (t a b : Int) (h : t < monthStart 9999 0 * 86400)
    (ha : 0 ≤ a ∧ a ≤ 5) (hb : 0 ≤ b ∧ b ≤ 59) :
    shiftAbs t 0 a b < monthStart 10000 0 * 86400 := by
  obtain ⟨m1, m12, lo1, hi1, d1⟩ := absDate_spec t
  have hd := day_le t
  have hy := year_lt_of_lt t 9999 h
  have e := shiftAbs_eq t a b ha.1
  have key : (monthStart ((absDate t).1 + ((absDate t).2.1 + a - 1) / 12)
          (((absDate t).2.1 + a - 1) % 12) + ((absDate t).2.2 + b - 1)) * 86400
        + t % 86400 < monthStart 10000 0 * 86400 := by
    rw [monthStart_10000]
    by_cases hc : ((absDate t).2.1 + a - 1) / 12 = 0
    · rw [hc, add_zero]
      have := monthStart_mono (absDate t).1 9998 (((absDate t).2.1 + a - 1) % 12) 11
        (by omega) (by omega) (by omega)
      rw [monthStart_9998_eleven] at this
      omega
    · have hc1 : ((absDate t).2.1 + a - 1) / 12 = 1 := by omega
      rw [hc1]
      have := monthStart_mono ((absDate t).1 + 1) 9999 (((absDate t).2.1 + a - 1) % 12) 4
        (by omega) (by omega) (by omega)
      rw [monthStart_9999_four] at this
      omega
  rw [e]
  exact key

theorem monthStart_one : monthStart 1 0 = 0 := by decide

theorem year_ge_of_ge (t y : Int) (h : monthStart y 0 * 86400 ≤ t) :
    y ≤ (absDate t).1 := by
  obtain ⟨m1, m12, lo1, hi1, d1⟩ := absDate_spec t
  by_contra hc
  have := monthStart_mono (absDate t).1 y (absDate t).2.1 0 (by omega) (by omega)
    (Or.inl (by omega))
  omega

theorem formatAbs_append_le (t1 t2 : Int) (off : String) (h0 : 0 ≤ t1) (h : t1 ≤ t2)
    (hmax : t2 < monthStart 10000 0 * 86400) :
    formatAbs t1 ++ off ≤ formatAbs t2 ++ off := by
  obtain ⟨m1, m12, _, _, _⟩ := absDate_spec t1
  obtain ⟨m2, m22, _, _, _⟩ := absDate_spec t2
  have hd1 := day_le t1
  have hd2 := day_le t2
  obtain ⟨a1, b1, c1, _⟩ := absClock_spec t1
  obtain ⟨a2, b2, c2, _⟩ := absClock_spec t2
  have hy2 := year_lt_of_lt t2 10000 hmax
  have hy1 := year_lt_of_lt t1 10000 (by omega)
  have hz1 := year_ge_of_ge t1 1 (by rw [monthStart_one]; omega)
  have hz2 := year_ge_of_ge t2 1 (by rw [monthStart_one]; omega)
  have hlex := fields_lex t1 t2 h
  unfold formatAbs
  simp only
  refine String_append_le _ _ off ?_ ?_
  · rw [layoutChars_length _ _ _ _ _ _ (by omega) (by omega) (by omega) (by omega) (by omega)
        (by omega),
      layoutChars_length _ _ _ _ _ _ (by omega) (by omega) (by omega) (by omega) (by omega)
        (by omega)]
  · exact layoutChars_le _ _ _ _ _ _ _ _ _ _ _ _ (by omega) (by omega) (by omega) (by omega)
      (by omega) (by omega) (by omega) (by omega) (by omega) (by omega) (by omega) (by omega)
      hlex

theorem payTimeOf_spec {vGeneral : Tp_general} {loc : Location} {now : Time} {rng : Rng}
    {t : Time} {s : String} (h : payTimeOf vGeneral loc now rng = .ok (t, s)) :
    ∃ months days : Int, (0 ≤ months ∧ months ≤ 5) ∧ (0 ≤ days ∧ days ≤ 59) ∧
      t = AddDate loc now 0 months days ∧ s = Format loc t ++ vGeneral.TimeOffset := by
  unfold payTimeOf at h
  cases h1 : Number 0 5 rng with
  | error e => rw [h1] at h; simp at h
  | ok r1 =>
    obtain ⟨months, rngA⟩ := r1
    rw [h1] at h; simp only at h
    cases h2 : Number 0 59 rngA with
    | error e => rw [h2] at h; simp at h
    | ok r2 =>
      obtain ⟨days, rngB⟩ := r2
      rw [h2] at h
      simp only [Except.ok.injEq, Prod.mk.injEq] at h
      refine ⟨months, days, Number_range h1, Number_range h2, h.1.symm, ?_⟩
      rw [← h.2, h.1]

/-! ## Locations with one constant offset -/

theorem wallAbs_const (loc : Location) (c : Int) (hloc : ∀ t, (loc.lookup t).offset = c)
    (t : Time) : wallAbs loc t = t + c := by
  unfold wallAbs
  rw [hloc]

theorem zoneAdjust_const (loc : Location) (c : Int) (hloc : ∀ t, (loc.lookup t).offset = c)
    (unix : Int) : zoneAdjust loc unix = unix - c := by
  unfold zoneAdjust
  simp only [hloc, ite_self]
  by_cases hc : c = 0
  · simp [hc]
  · simp [hc]

theorem AddDate_const (loc : Location) (c : Int) (hloc : ∀ t, (loc.lookup t).offset = c)
    (t : Time) (months days : Int) :
    AddDate loc t 0 months days = shiftAbs (t + c) 0 months days - c := by
  unfold AddDate Date shiftAbs
  simp only [wallAbs_const loc c hloc, zoneAdjust_const loc c hloc]

theorem Format_const (loc : Location) (c : Int) (hloc : ∀ t, (loc.lookup t).offset = c)
    (t : Time) : Format loc t = formatAbs (t + c) := by
  unfold Format formatAbs
  simp only [wallAbs_const loc c hloc]

theorem dateAbs_9999 : dateAbs 9999 1 1 0 0 0 = monthStart 9999 0 * 86400 := by decide

theorem dateAbs_one : dateAbs 1 1 1 0 0 0 = 0 := by decide

theorem shiftAbs_order (s p c t a b : Int) (ha : 0 ≤ a) (hb : 0 ≤ b) (hclock : s ≤ p)
    (hT : t = shiftAbs (p + c) 0 a b - c) :
    t + c = shiftAbs (p + c) 0 a b ∧ s ≤ t ∧ s + c ≤ t + c := by
  have := shiftAbs_ge (p + c) a b ha hb
  omega

theorem not_le_of_toList_lt {a b : String} (h : b.toList < a.toList) : ¬ (a ≤ b) :=
  fun hle => hle (String.lt_iff_toList_lt.mpr h)

/-! ## Claims about the timestamps -/

/-- C9 (as stated, refuted): two inputs with the payment clock read after the
sale clock and both draws 0. In `America/New_York`, with the sale clock read at
`2023-11-05T05:59:59Z` and the payment clock at `06:00:00Z`, when daylight
time ends, `AddDate` resolves the repeated wall-clock hour to its first pass:
the payment instant is `05:00:00Z`, before the sale instant, and it is stamped
`2023-11-05T01:00:00-04:00`, before the sale stamp `2023-11-05T01:59:59-04:00`.
In UTC, with the sale clock read in the last second of year 9999 and the
payment clock one second later, the instants are in order and the payment is
stamped `10000-01-01T00:00:00+02:00`, which as a string is smaller than the
sale stamp `9999-12-31T23:59:59+02:00`. -/
theorem payment_before_sale_counterexample :
    (dstEnv.saleNow ≤ dstEnv.payNow ∧
      ∃ b p name, constructFakeBasket dstConfig demoSeed dstEnv = .ok (b, p, name) ∧
        b.SaleDateTime = "2023-11-05T01:59:59-04:00" ∧
        p.PayDateTime = "2023-11-05T01:00:00-04:00" ∧
        p.PayDateTime
          = Format dstEnv.loc (AddDate dstEnv.loc dstEnv.payNow 0 0 0) ++ dstConfig.TimeOffset ∧
        AddDate dstEnv.loc dstEnv.payNow 0 0 0 = dateAbs 2023 11 5 5 0 0 ∧
        AddDate dstEnv.loc dstEnv.payNow 0 0 0 < dstEnv.saleNow ∧
        ¬ (b.SaleDateTime ≤ p.PayDateTime)) ∧
    (lateEnv.saleNow ≤ lateEnv.payNow ∧
      ∃ b p name, constructFakeBasket demoConfig demoSeed lateEnv = .ok (b, p, name) ∧
        b.SaleDateTime = "9999-12-31T23:59:59+02:00" ∧
        p.PayDateTime = "10000-01-01T00:00:00+02:00" ∧
        p.PayDateTime
          = Format lateEnv.loc (AddDate lateEnv.loc lateEnv.payNow 0 0 0)
            ++ demoConfig.TimeOffset ∧
        lateEnv.saleNow ≤ AddDate lateEnv.loc lateEnv.payNow 0 0 0 ∧
        ¬ (b.SaleDateTime ≤ p.PayDateTime)) := by
  refine ⟨⟨by decide, _, _, _, rfl, ?_, ?_, ?_, ?_, ?_, ?_⟩,
    ⟨by decide, _, _, _, rfl, ?_, ?_, ?_, ?_, ?_⟩⟩
  · decide
  · decide
  · decide
  · decide
  · decide
  · exact not_le_of_toList_lt (by decide)
  · decide
  · decide
  · decide
  · decide
  · exact not_le_of_toList_lt (by decide)

/-- C9 (amended): in a location whose zone offset is one constant `c` (no
daylight-time change), with the payment clock read not earlier than the sale
clock, `constructFakeBasket` returns, and for every pair it returns the payment
instant (the second clock reading plus the drawn 0..5 months and 0..59 days) is
not earlier than the sale instant; and if moreover the sale clock reads year 1
or later and the payment clock reads a time before year 9999 (four-digit years),
`PayDateTime` is not smaller than `SaleDateTime` as a string. -/
theorem payment_not_before_sale (vGeneral : Tp_general) (varSeed : TPSeed) (env : Env)
    (c : Int)
    (h0 : 0 ≤ vGeneral.Store) (h1 : vGeneral.Store < varSeed.Stores.length)
    (hC : 0 < varSeed.Clerks.length) (hP : 0 < varSeed.Products.length)
    (hI : 1 ≤ vGeneral.Max_items_basket) (hQ : 1 ≤ vGeneral.Max_quantity)
    (hloc : ∀ t, (env.loc.lookup t).offset = c)
    (hclock : env.saleNow ≤ env.payNow) :
    (∃ r, constructFakeBasket vGeneral varSeed env = .ok r) ∧
    ∀ b p name, constructFakeBasket vGeneral varSeed env = .ok (b, p, name) →
      ∃ (months days : Int) (payT : Time),
        (0 ≤ months ∧ months ≤ 5) ∧ (0 ≤ days ∧ days ≤ 59) ∧
        payT = AddDate env.loc env.payNow 0 months days ∧
        b.SaleDateTime = Format env.loc env.saleNow ++ vGeneral.TimeOffset ∧
        p.PayDateTime = Format env.loc payT ++ vGeneral.TimeOffset ∧
        env.saleNow ≤ payT ∧
        (dateAbs 1 1 1 0 0 0 ≤ wallAbs env.loc env.saleNow →
          wallAbs env.loc env.payNow < dateAbs 9999 1 1 0 0 0 →
          b.SaleDateTime ≤ p.PayDateTime) := by
  refine ⟨constructFakeBasket_ok vGeneral varSeed env h0 h1 hC hP hI hQ, ?_⟩
  intro b p name h
  obtain ⟨store, rng1, clerk, rng2, n, rng3, items, nett, rng4, tp, rng5, payT, payS,
    _, _, _, _, _, hpay, hb, hp, _⟩ := constructFakeBasket_spec h
  obtain ⟨months, days, hm, hd, hT, hS⟩ := payTimeOf_spec hpay
  obtain ⟨hshift, hle, hle2⟩ := shiftAbs_order env.saleNow env.payNow c payT months days
    hm.1 hd.1 hclock (by rw [hT, AddDate_const env.loc c hloc])
  subst hb
  subst hp
  refine ⟨months, days, payT, hm, hd, hT, rfl, hS, hle, ?_⟩
  intro hsale hmax
  rw [dateAbs_one, wallAbs_const env.loc c hloc] at hsale
  rw [dateAbs_9999, wallAbs_const env.loc c hloc] at hmax
  have hlt : payT + c < monthStart 10000 0 * 86400 := by
    rw [hshift]
    exact shiftAbs_lt_limit (env.payNow + c) months days hmax hm hd
  show Format env.loc env.saleNow ++ vGeneral.TimeOffset ≤ payS
  rw [hS, Format_const env.loc c hloc, Format_const env.loc c hloc]
  exact formatAbs_append_le (env.saleNow + c) (payT + c) vGeneral.TimeOffset hsale hle2 hlt

theorem payment_not_before_sale_witness :
    ((∀ t, (demoEnv.loc.lookup t).offset = 0) ∧ demoEnv.saleNow ≤ demoEnv.payNow ∧
      dateAbs 1 1 1 0 0 0 ≤ wallAbs demoEnv.loc demoEnv.saleNow ∧
      wallAbs demoEnv.loc demoEnv.payNow < dateAbs 9999 1 1 0 0 0) ∧
    ((∃ r, constructFakeBasket demoConfig demoSeed demoEnv = .ok r) ∧
    ∀ b p name, constructFakeBasket demoConfig demoSeed demoEnv = .ok (b, p, name) →
      ∃ (months days : Int) (payT : Time),
        (0 ≤ months ∧ months ≤ 5) ∧ (0 ≤ days ∧ days ≤ 59) ∧
        payT = AddDate demoEnv.loc demoEnv.payNow 0 months days ∧
        b.SaleDateTime = Format demoEnv.loc demoEnv.saleNow ++ demoConfig.TimeOffset ∧
        p.PayDateTime = Format demoEnv.loc payT ++ demoConfig.TimeOffset ∧
        demoEnv.saleNow ≤ payT ∧
        (dateAbs 1 1 1 0 0 0 ≤ wallAbs demoEnv.loc demoEnv.saleNow →
          wallAbs demoEnv.loc demoEnv.payNow < dateAbs 9999 1 1 0 0 0 →
          b.SaleDateTime ≤ p.PayDateTime)) :=
  ⟨⟨fun _ => rfl, by decide, by decide, by decide⟩,
    payment_not_before_sale demoConfig demoSeed demoEnv 0 (by decide) (by decide) (by decide)
      (by decide) (by decide) (by decide) (fun _ => rfl) (by decide)⟩


/-- C10 (the code at the failing input): with both clock readings at
`2023-12-06T13:05:09` and the draws 4 (months) and 59 (days), the payment is
stamped `2024-06-04T13:05:09`: 181 days after the sale, not within 6 minutes of
it. -/
theorem payment_months_after_sale :
    ∃ b p name, constructFakeBasket demoConfig demoSeed demoEnv = .ok (b, p, name) ∧
      b.SaleDateTime = "2023-12-06T13:05:09+02:00" ∧
      p.PayDateTime = "2024-06-04T13:05:09+02:00" ∧
      p.PayDateTime
        = Format demoEnv.loc (AddDate demoEnv.loc demoEnv.payNow 0 4 59)
          ++ demoConfig.TimeOffset ∧
      AddDate demoEnv.loc demoEnv.payNow 0 4 59 - demoEnv.saleNow = 181 * 86400 ∧
      ¬ (AddDate demoEnv.loc demoEnv.payNow 0 4 59 - demoEnv.saleNow ≤ 6 * 60) := by
  refine ⟨_, _, _, rfl, ?_, ?_, ?_, ?_, ?_⟩
  · decide
  · decide
  · decide
  · decide
  · decide

/-! ## Claims about the listener, the store selection and empty catalogs -/

theorem saveToFile_listenerCount (json : Json) (inp : IterInput) (b : Tp_basket)
    (p : Tp_payment) (s : LoopState) :
    listenerCount (saveToFile json inp b p s).events = listenerCount s.events := by
  unfold saveToFile logIfError
  simp only [listenerCount_append]
  cases json.MarshalIndentBasket b <;> cases json.MarshalIndentPayment p <;>
    cases inp.basketWriteOk <;> cases inp.pmntWriteOk <;> simp [listenerCount]

theorem kafkaResult_listenerCount (vKafka : TKafka) (inp : IterInput) (name jb jp : String)
    (s : LoopState) :
    listenerCount (kafkaResult vKafka inp name jb jp s).events
      = listenerCount s.events + 1 := by
  unfold kafkaResult flushBlock
  by_cases h1 : s.vFlush + 1 = vKafka.Flush_interval <;>
    by_cases h2 : inp.flushRemaining > 0 <;>
    cases inp.basketSendOk <;> cases inp.paymentSendOk <;>
    simp [h1, h2, listenerCount_append, listenerCount]

theorem passResult_listenerCount (vGeneral : Tp_general) (vKafka : TKafka) (json : Json)
    (inp : IterInput) (b : Tp_basket) (p : Tp_payment) (name jb jp : String) (s : LoopState) :
    listenerCount (passResult vGeneral vKafka json inp b p name jb jp s).events
      = listenerCount s.events + 1 := by
  unfold passResult
  by_cases h : vGeneral.Json_to_file = 1
  · rw [if_pos h, saveToFile_listenerCount, kafkaResult_listenerCount]
  · rw [if_neg h, kafkaResult_listenerCount]

theorem runLoop_listeners (vGeneral : Tp_general) (vKafka : TKafka) (varSeed : TPSeed)
    (json : Json) (inp : Nat → IterInput)
    (h0 : 0 ≤ vGeneral.Store) (h1 : vGeneral.Store < varSeed.Stores.length)
    (hC : 0 < varSeed.Clerks.length) (hP : 0 < varSeed.Products.length)
    (hI : 1 ≤ vGeneral.Max_items_basket) (hQ : 1 ≤ vGeneral.Max_quantity)
    (hk : vGeneral.KafkaEnabled = 1) (hs : 1 ≤ vGeneral.Sleep)
    (hjb : ∀ b, ∃ t, json.MarshalBasket b = .ok t)
    (hjp : ∀ p, ∃ t, json.MarshalPayment p = .ok t) :
    ∀ (n count : Nat) (s : LoopState),
      ∃ s1, runLoop vGeneral vKafka varSeed json inp n count s = .next s1 ∧
        listenerCount s1.events = listenerCount s.events + n := by
  intro n
  induction n with
  | zero => intro count s; exact ⟨s, rfl, rfl⟩
  | succ n ih =>
    intro count s
    obtain ⟨b, p, name, jb, jp, _, _, _, hit⟩ :=
      iteration_healthy vGeneral vKafka varSeed json (inp count) s h0 h1 hC hP hI hQ hk hs
        hjb hjp
    obtain ⟨s1, hrun, hl⟩ :=
      ih (count + 1) (passResult vGeneral vKafka json (inp count) b p name jb jp s)
    refine ⟨s1, ?_, ?_⟩
    · rw [runLoop, hit]
      exact hrun
    · rw [hl, passResult_listenerCount]
      omega

/-- C11 (the code at the failing input): with the broker enabled the listener
goroutine is started inside the loop body, once per pass: after 1 pass one
listener has been started, after 3 passes three. -/
theorem listener_spawned_every_pass :
    (∃ s, runLoop demoConfig demoKafka demoSeed demoJson demoInput 1 0 initState = .next s ∧
      listenerCount s.events = 1) ∧
    (∃ s, runLoop demoConfig demoKafka demoSeed demoJson demoInput 3 0 initState = .next s ∧
      listenerCount s.events = 3 ∧ listenerCount s.events ≠ 1) := by
  obtain ⟨s1, e1, l1⟩ := runLoop_listeners demoConfig demoKafka demoSeed demoJson demoInput
    (by decide) (by decide) (by decide) (by decide) (by decide) (by decide) rfl (by decide)
    demoJson_basket demoJson_payment 1 0 initState
  obtain ⟨s3, e3, l3⟩ := runLoop_listeners demoConfig demoKafka demoSeed demoJson demoInput
    (by decide) (by decide) (by decide) (by decide) (by decide) (by decide) rfl (by decide)
    demoJson_basket demoJson_payment 3 0 initState
  have h1 : listenerCount s1.events = 1 := by rw [l1]; rfl
  have h3 : listenerCount s3.events = 3 := by rw [l3]; rfl
  exact ⟨⟨s1, e1, h1⟩, ⟨s3, e3, h3, by rw [h3]; decide⟩⟩

theorem index_error {α : Type} (xs : List α) (i : Int) (h : i < 0 ∨ (xs.length : Int) ≤ i) :
    index xs i = .error .indexOutOfRange := by
  unfold index
  by_cases hi : i < 0
  · rw [if_pos hi]
  · rw [if_neg hi]
    have hlen : xs.length ≤ i.toNat := by omega
    rw [List.get?_eq_none.mpr hlen]

theorem selectStore_random {vGeneral : Tp_general} {varSeed : TPSeed} {rng rng1 : Rng}
    {store : TStoreStruct} (hz : vGeneral.Store = 0)
    (h : selectStore vGeneral varSeed rng = .ok (store, rng1)) :
    ∃ i, Number 0 ((varSeed.Stores.length : Int) - 1) rng = .ok (i, rng1) ∧
      index varSeed.Stores i = .ok store := by
  unfold selectStore at h
  rw [if_pos hz] at h
  cases h1 : Number 0 ((varSeed.Stores.length : Int) - 1) rng with
  | error e => rw [h1] at h; simp at h
  | ok r =>
    obtain ⟨i, rngA⟩ := r
    rw [h1] at h; simp only at h
    cases h2 : index varSeed.Stores i with
    | error e => rw [h2] at h; simp at h
    | ok st =>
      rw [h2] at h
      simp only [Except.ok.injEq, Prod.mk.injEq] at h
      obtain ⟨hst, hrng⟩ := h
      subst hst
      subst hrng
      exact ⟨i, rfl, h2⟩

theorem selectStore_fixed {vGeneral : Tp_general} {varSeed : TPSeed} {rng rng1 : Rng}
    {store : TStoreStruct} (hz : vGeneral.Store ≠ 0)
    (h : selectStore vGeneral varSeed rng = .ok (store, rng1)) :
    index varSeed.Stores vGeneral.Store = .ok store := by
  unfold selectStore at h
  rw [if_neg hz] at h
  cases h2 : index varSeed.Stores vGeneral.Store with
  | error e => rw [h2] at h; simp at h
  | ok st =>
    rw [h2] at h
    simp only [Except.ok.injEq, Prod.mk.injEq] at h
    rw [h.1]

theorem selectStore_out_of_range (vGeneral : Tp_general) (varSeed : TPSeed) (rng : Rng)
    (hz : vGeneral.Store ≠ 0)
    (h : vGeneral.Store < 0 ∨ (varSeed.Stores.length : Int) ≤ vGeneral.Store) :
    selectStore vGeneral varSeed rng = .error .indexOutOfRange := by
  unfold selectStore
  rw [if_neg hz, index_error varSeed.Stores vGeneral.Store h]

/-- C12: store selection in `constructFakeBasket`, the clerks and products
being non-empty and both maxima at least 1. With store index 0 and a non-empty
store list the call returns and the basket's store is `Stores[i]` for the drawn
`i`, `0 ≤ i ≤ len(Stores) - 1`. With a non-zero index in range the call returns
and the basket's store is `Stores[Store]`. In both cases the returned store
name is that store's name. With a non-zero index that is negative or
`≥ len(Stores)` the call fails with the index-out-of-range panic and returns
nothing. -/
theorem store_selection (vGeneral : Tp_general) (varSeed : TPSeed) (env : Env)
    (hC : 0 < varSeed.Clerks.length) (hP : 0 < varSeed.Products.length)
    (hI : 1 ≤ vGeneral.Max_items_basket) (hQ : 1 ≤ vGeneral.Max_quantity) :
    (vGeneral.Store = 0 → 0 < varSeed.Stores.length →
      (∃ r, constructFakeBasket vGeneral varSeed env = .ok r) ∧
      ∀ b p name, constructFakeBasket vGeneral varSeed env = .ok (b, p, name) →
        ∃ i rng1, Number 0 ((varSeed.Stores.length : Int) - 1) env.rng = .ok (i, rng1) ∧
          (0 ≤ i ∧ i ≤ (varSeed.Stores.length : Int) - 1) ∧
          index varSeed.Stores i = .ok b.Store ∧ name = b.Store.Name) ∧
    (vGeneral.Store ≠ 0 → 0 ≤ vGeneral.Store → vGeneral.Store < varSeed.Stores.length →
      (∃ r, constructFakeBasket vGeneral varSeed env = .ok r) ∧
      ∀ b p name, constructFakeBasket vGeneral varSeed env = .ok (b, p, name) →
        index varSeed.Stores vGeneral.Store = .ok b.Store ∧ name = b.Store.Name) ∧
    (vGeneral.Store ≠ 0 →
      (vGeneral.Store < 0 ∨ (varSeed.Stores.length : Int) ≤ vGeneral.Store) →
      constructFakeBasket vGeneral varSeed env = .error .indexOutOfRange) := by
  refine ⟨?_, ?_, ?_⟩
  · intro hz hS
    refine ⟨constructFakeBasket_ok vGeneral varSeed env (by omega) (by omega) hC hP hI hQ, ?_⟩
    intro b p name h
    obtain ⟨store, rng1, clerk, rng2, n, rng3, items, nett, rng4, tp, rng5, payT, payS,
      hs, _, _, _, _, _, hb, _, hname⟩ := constructFakeBasket_spec h
    obtain ⟨i, hi, hidx⟩ := selectStore_random hz hs
    subst hb
    exact ⟨i, rng1, hi, Number_range hi, hidx, hname⟩
  · intro hz h0 h1
    refine ⟨constructFakeBasket_ok vGeneral varSeed env h0 h1 hC hP hI hQ, ?_⟩
    intro b p name h
    obtain ⟨store, rng1, clerk, rng2, n, rng3, items, nett, rng4, tp, rng5, payT, payS,
      hs, _, _, _, _, _, hb, _, hname⟩ := constructFakeBasket_spec h
    have hidx := selectStore_fixed hz hs
    subst hb
    exact ⟨hidx, hname⟩
  · intro hz hout
    unfold constructFakeBasket
    rw [selectStore_out_of_range vGeneral varSeed env.rng hz hout]

theorem store_selection_witness :
    ((∃ r, constructFakeBasket demoConfig demoSeed demoEnv = .ok r) ∧
      ∀ b p name, constructFakeBasket demoConfig demoSeed demoEnv = .ok (b, p, name) →
        ∃ i rng1, Number 0 ((demoSeed.Stores.length : Int) - 1) demoEnv.rng = .ok (i, rng1) ∧
          (0 ≤ i ∧ i ≤ (demoSeed.Stores.length : Int) - 1) ∧
          index demoSeed.Stores i = .ok b.Store ∧ name = b.Store.Name) ∧
    ((∃ r, constructFakeBasket fixedStoreConfig demoSeed demoEnv = .ok r) ∧
      ∀ b p name, constructFakeBasket fixedStoreConfig demoSeed demoEnv = .ok (b, p, name) →
        index demoSeed.Stores fixedStoreConfig.Store = .ok b.Store ∧ name = b.Store.Name) ∧
    constructFakeBasket badStoreConfig demoSeed demoEnv = .error .indexOutOfRange :=
  ⟨(store_selection demoConfig demoSeed demoEnv (by decide) (by decide) (by decide)
      (by decide)).1 rfl (by decide),
    (store_selection fixedStoreConfig demoSeed demoEnv (by decide) (by decide) (by decide)
      (by decide)).2.1 (by decide) (by decide) (by decide),
    (store_selection badStoreConfig demoSeed demoEnv (by decide) (by decide) (by decide)
      (by decide)).2.2 (by decide) (by decide)⟩

/-- C13: for every configuration (in particular those with
`maxItemsPerBasket ≥ 1` and `maxQuantity ≥ 1`), if the stores, the clerks or the
products of the seed catalog are empty, `constructFakeBasket` fails: it ends in
a panic and returns no basket/payment pair. -/
theorem empty_catalog_fails (vGeneral : Tp_general) (varSeed : TPSeed) (env : Env)
    (hempty : varSeed.Stores = [] ∨ varSeed.Clerks = [] ∨ varSeed.Products = []) :
    (∃ e, constructFakeBasket vGeneral varSeed env = .error e) ∧
    ∀ r, constructFakeBasket vGeneral varSeed env ≠ .ok r := by
  have hno : ∀ r, constructFakeBasket vGeneral varSeed env ≠ .ok r := by
    rintro ⟨b, p, name⟩ h
    obtain ⟨store, rng1, clerk, rng2, n, rng3, items, nett, rng4, tp, rng5, payT, payS,
      hs, hc, hn, hloop, _, _, _, _, _⟩ := constructFakeBasket_spec h
    rcases hempty with he | he | he
    · have hmem : store ∈ varSeed.Stores := by
        by_cases hz : vGeneral.Store = 0
        · obtain ⟨i, _, hidx⟩ := selectStore_random hz hs
          exact (index_spec hidx).2.2
        · exact (index_spec (selectStore_fixed hz hs)).2.2
      rw [he] at hmem
      simp at hmem
    · unfold selectClerk at hc
      cases h1 : Number 0 ((varSeed.Clerks.length : Int) - 1) rng1 with
      | error e => rw [h1] at hc; simp at hc
      | ok r =>
        obtain ⟨i, rngA⟩ := r
        rw [h1] at hc; simp only at hc
        cases h2 : index varSeed.Clerks i with
        | error e => rw [h2] at hc; simp at hc
        | ok c =>
          have hmem := (index_spec h2).2.2
          rw [he] at hmem
          simp at hmem
    · obtain ⟨new, _, hlen, _, hall⟩ := basketLoop_spec _ _ _ _ _ _ _ _ _ _ hloop
      have hr := Number_range hn
      cases new with
      | nil => simp at hlen; omega
      | cons it rest =>
        obtain ⟨_, q, hq, _⟩ := hall it (List.mem_cons_self _ _)
        rw [he] at hq
        simp at hq
  refine ⟨?_, hno⟩
  cases h : constructFakeBasket vGeneral varSeed env with
  | error e => exact ⟨e, rfl⟩
  | ok r => exact absurd h (hno r)

theorem empty_catalog_fails_witness :
    (1 ≤ demoConfig.Max_items_basket ∧ 1 ≤ demoConfig.Max_quantity ∧
      (noClerkSeed.Stores = [] ∨ noClerkSeed.Clerks = [] ∨ noClerkSeed.Products = [])) ∧
    ((∃ e, constructFakeBasket demoConfig noClerkSeed demoEnv = .error e) ∧
    ∀ r, constructFakeBasket demoConfig noClerkSeed demoEnv ≠ .ok r) :=
  ⟨⟨by decide, by decide, Or.inr (Or.inl rfl)⟩,
    empty_catalog_fails demoConfig noClerkSeed demoEnv (Or.inr (Or.inl rfl))⟩

/-! ## The end-to-end scenario -/

set_option exponentiation.threshold 2048 in
set_option maxRecDepth 100000 in
theorem scenario_first_product :
    toFixed (F64.add (F64.zero false) (F64.mul (F64.ofDecimal 1000 100) (F64.ofInt 1))) 2
      = F64.ofDecimal 1000 100 ∧
    toFixed (F64.mul (F64.ofDecimal 1000 100) (F64.ofDecimal 15 100)) 2
      = F64.ofDecimal 150 100 ∧
    toFixed (F64.add (F64.ofDecimal 1000 100) (F64.ofDecimal 150 100)) 2
      = F64.ofDecimal 1150 100 := by decide

set_option exponentiation.threshold 2048 in
set_option maxRecDepth 100000 in
theorem scenario_second_product :
    toFixed (F64.add (F64.zero false) (F64.mul (F64.ofDecimal 250 100) (F64.ofInt 1))) 2
      = F64.ofDecimal 250 100 ∧
    toFixed (F64.mul (F64.ofDecimal 250 100) (F64.ofDecimal 15 100)) 2
      = F64.ofDecimal 38 100 ∧
    toFixed (F64.add (F64.ofDecimal 250 100) (F64.ofDecimal 38 100)) 2
      = F64.ofDecimal 288 100 := by decide

/-- C14: in the end-to-end scenario (stores A and B, clerk C1, products priced
10.00 and 2.50, `maxItemsPerBasket = 1`, `maxQuantity = 1`, `vatRate = 0.15`,
store index 0), whatever the random draws, the unique-id strings and the clock
readings, `constructFakeBasket` returns a basket with exactly 1 item of
quantity 1 whose `(Nett, VAT, Total)` is `(10.00, 1.50, 11.50)` or
`(2.50, 0.38, 2.88)`, and a payment whose `Paid` is that total. -/
theorem scenario_amounts (env : Env) :
    ∃ b p name, constructFakeBasket scenarioConfig demoSeed env = .ok (b, p, name) ∧
      b.BasketItems.length = 1 ∧ (∀ it ∈ b.BasketItems, it.Quantity = 1) ∧
      ((b.Nett = F64.ofDecimal 1000 100 ∧ b.VAT = F64.ofDecimal 150 100 ∧
          b.Total = F64.ofDecimal 1150 100) ∨
        (b.Nett = F64.ofDecimal 250 100 ∧ b.VAT = F64.ofDecimal 38 100 ∧
          b.Total = F64.ofDecimal 288 100)) ∧
      p.Paid = b.Total := by
  obtain ⟨⟨b, p, name⟩, h⟩ := constructFakeBasket_ok scenarioConfig demoSeed env
    (by decide) (by decide) (by decide) (by decide) (by decide) (by decide)
  obtain ⟨store, rng1, clerk, rng2, n, rng3, items, nett, rng4, tp, rng5, payT, payS,
    _, _, hn, hloop, _, _, hb, hp, _⟩ := constructFakeBasket_spec h
  have hmaxI : scenarioConfig.Max_items_basket = 1 := rfl
  have hmaxQ : scenarioConfig.Max_quantity = 1 := rfl
  have hvat : scenarioConfig.Vatrate = F64.ofDecimal 15 100 := rfl
  have hr := Number_range hn
  rw [hmaxI] at hr
  have hn1 : n = 1 := by omega
  subst hn1
  obtain ⟨new, hnew, hlen, hsum, hall⟩ := basketLoop_spec _ _ _ _ _ _ _ _ _ _ hloop
  rw [List.nil_append] at hnew
  subst hnew
  rw [hmaxQ] at hall
  match items, hlen, hsum, hall with
  | [it], _, hsum, hall =>
    obtain ⟨hq, q, hqmem, _, _, _, _, hprice⟩ := hall it (List.mem_singleton.mpr rfl)
    have hq1 : it.Quantity = 1 := by omega
    simp only [List.foldl_cons, List.foldl_nil] at hsum
    rw [hq1, hprice] at hsum
    refine ⟨b, p, name, h, ?_, ?_, ?_, ?_⟩
    · rw [hb]
      rfl
    · rw [hb]
      intro x hx
      have hx1 : x = it := List.mem_singleton.mp hx
      rw [hx1]
      exact hq1
    · have hcases : q.Price = F64.ofDecimal 1000 100 ∨ q.Price = F64.ofDecimal 250 100 := by
        have hm : q ∈ demoSeed.Products := hqmem
        simp only [demoSeed, List.mem_cons, List.mem_singleton, List.not_mem_nil,
          or_false] at hm
        rcases hm with hm | hm
        · left; rw [hm]
        · right; rw [hm]
      rw [hb, hvat]
      simp only
      obtain ⟨a1, a2, a3⟩ := scenario_first_product
      obtain ⟨c1, c2, c3⟩ := scenario_second_product
      rcases hcases with hc | hc
      · left
        rw [hsum, hc, a1, a2, a3]
        exact ⟨rfl, rfl, rfl⟩
      · right
        rw [hsum, hc, c1, c2, c3]
        exact ⟨rfl, rfl, rfl⟩
    · rw [hb, hp]

end Producer
